import Mathlib

/-!
Shallow embedding of the EAGLE stellar-evolution module of SWIFT
(`stars.h` of the EAGLE stars scheme, together with the particle layout
of `stars_part.h`), and theorems about the claims of the specification.

Conventions of the embedding:
* C `float`/`double` arithmetic is modelled over `ℝ`; `log10` is
  `Real.logb 10`, `M_LN10` is `Real.log 10`, `exp` is `Real.exp`,
  `pow` is `Real.rpow`.
* Code that calls `error()` (which aborts the run) is modelled in
  `Option`: `none` is the abort, `some` the normal result.
* C arrays become functions `ℕ → ℝ`; the scratch buffer
  `stars_props.stellar_yield` (mutated through a pointer by the SNII and
  AGB channels) is threaded explicitly as a separate state component.
* Helpers that live in headers that are not part of the sources at hand
  (`imf.h`, `yield_tables.h`, `chemistry_struct.h`) are either modelled
  from the spec (row-major indexing, the tracked-element enumeration) or
  taken as parameters (`integrate_imf`, `determine_imf_bins`, the global
  `log_min_metallicity`), as marked on each definition.
-/

namespace SwiftEagle

/-- `log10(6)`, validity floor of the SNII channel (constant in stars.h). -/
def log10_SNII_min_mass_msun : ℝ := 0.77815125

/-- `log10(100)`, validity ceiling of the SNII channel (constant in stars.h). -/
def log10_SNII_max_mass_msun : ℝ := 2

/-- `log10(8)`, maximum SNIa progenitor mass (constant in stars.h). -/
def log10_SNIa_max_mass_msun : ℝ := 0.90308999

/-- Maximum IMF mass in solar masses (constant in stars.h). -/
def imf_max_mass_msun : ℝ := 100

/-- Modelled from the spec: the tracked-element enumeration of the EAGLE
chemistry scheme (`chemistry_struct.h`, not among the sources at hand):
nine elements H, He, C, N, O, Ne, Mg, Si, Fe in this order. -/
def chemistry_element_count : ℕ := 9

/-- Modelled from the spec: index of hydrogen in the element enumeration. -/
def chemistry_element_H : ℕ := 0

/-- Modelled from the spec: index of helium in the element enumeration. -/
def chemistry_element_He : ℕ := 1

/-- Modelled from the spec: index of iron in the element enumeration. -/
def chemistry_element_Fe : ℕ := 8

/-- Modelled from the spec: row-major indexing of a 2-D table stored as a
flat array (`yield_tables.h`, not among the sources at hand). -/
def row_major_index_2d (i j : ℕ) (_nx ny : ℕ) : ℕ := i * ny + j

/-- Modelled from the spec: row-major indexing of a 3-D table stored as a
flat array (`yield_tables.h`, not among the sources at hand). -/
def row_major_index_3d (i j k : ℕ) (_nx ny nz : ℕ) : ℕ := i * ny * nz + j * nz + k

/-- `interpol_1d` of stars.h: linear interpolation between entries `i`
and `i+1` of a table.  The C index is an `int`; a negative index (which
would be an out-of-bounds read in C, only reachable on degenerate
tables) is clamped by `Int.toNat`. -/
def interpol_1d (table : ℕ → ℝ) (i : ℤ) (dx : ℝ) : ℝ :=
  (1 - dx) * table i.toNat + dx * table (i + 1).toNat

/-- `interpol_2d` of stars.h: bilinear interpolation on a 2-D table. -/
def interpol_2d (table : ℕ → ℕ → ℝ) (i j : ℕ) (dx dy : ℝ) : ℝ :=
  (1 - dx) * (1 - dy) * table i j + (1 - dx) * dy * table i (j + 1) +
    dx * (1 - dy) * table (i + 1) j + dx * dy * table (i + 1) (j + 1)

/-- The forward scan `for (j = 0; j < n-1 && z > met[j+1]; j++);` of
`determine_bin_yield`, as a fuel-indexed recursion: `fuel` is the number
of loop iterations still allowed by the bound `j < n-1`. -/
noncomputable def binScan (met : ℕ → ℝ) (z : ℝ) : ℕ → ℕ → ℕ
  | j, 0 => j
  | j, fuel + 1 => if z > met (j + 1) then binScan met z (j + 1) fuel else j

/-- The forward scan `for (i = 0; i < n-1; i++) if (ax[i+1] > q) break;`
used by the tabulated lifetime model on its mass and metallicity axes. -/
noncomputable def axisScan (ax : ℕ → ℝ) (q : ℝ) : ℕ → ℕ → ℕ
  | j, 0 => j
  | j, fuel + 1 => if ax (j + 1) > q then j else axisScan ax q (j + 1) fuel

/-- Particle chemistry data (per-particle fields of `chemistry_struct.h`,
not among the sources at hand; the fields are exactly those the
evolution code reads or writes). -/
structure chemistry_part_data where
  metal_mass_fraction_total : ℝ
  metal_mass_fraction : ℕ → ℝ
  mass_from_SNIa : ℝ
  metal_mass_fraction_from_SNIa : ℝ
  iron_mass_fraction_from_SNIa : ℝ
  mass_from_SNII : ℝ
  metal_mass_fraction_from_SNII : ℝ
  mass_from_AGB : ℝ
  metal_mass_fraction_from_AGB : ℝ

/-- The star particle (`struct spart` of stars_part.h), restricted to the
fields the evolution code reads or writes. -/
structure spart where
  age : ℝ
  chemistry_data : chemistry_part_data
  metals_released : ℕ → ℝ
  metal_mass_released : ℝ
  num_snia : ℝ
  time_since_enrich_Gyr : ℝ

/-- AGB/SNII yield tables (`struct yield_table` of stars_part.h),
restricted to the fields the evolution code reads. -/
structure yield_table where
  metallicity : ℕ → ℝ
  SPH : ℕ → ℝ
  ejecta_SPH : ℕ → ℝ
  total_metals_SPH : ℕ → ℝ

/-- `struct lifetime_table` of stars_part.h. -/
structure lifetime_table where
  n_mass : ℕ
  n_z : ℕ
  mass : ℕ → ℝ
  metallicity : ℕ → ℝ
  dyingtime : ℕ → ℕ → ℝ

/-- `struct stars_props` of stars_part.h, restricted to the fields the
evolution code reads.  The scratch buffer `stellar_yield` is threaded
separately (see the module docstring). -/
structure stars_props where
  yield_AGB : yield_table
  yield_SNII : yield_table
  yield_SNIa_SPH : ℕ → ℝ
  yield_SNIa_total_metals_SPH : ℝ
  SNIa_efficiency : ℝ
  SNIa_timescale : ℝ
  SNIa_mass_transfer : ℤ
  SNII_mass_transfer : ℤ
  AGB_mass_transfer : ℤ
  SNII_n_mass : ℕ
  SNII_n_z : ℕ
  AGB_n_mass : ℕ
  AGB_n_z : ℕ
  lifetimes : lifetime_table
  stellar_lifetime_flag : ℤ

/-- `determine_bin_yield` of stars.h.  `lmm` models the global constant
`log_min_metallicity` of `yield_tables.h` (not among the sources at
hand), kept as a parameter.  As in the C code (note its comment
`Modify to work with SNII yields !!!`), the metallicity bracket is
always resolved against the AGB yield table's metallicity axis with
`AGB_n_z` rows.  In the zero-width branch the C code assigns the
pointer (`dz = 0;`), not the value, so the previously stored fraction is
returned unchanged there. -/
noncomputable def determine_bin_yield (lmm : ℝ) (props : stars_props)
    (log_metallicity : ℝ) : ℕ × ℕ × ℝ :=
  if log_metallicity > lmm then
    let met := props.yield_AGB.metallicity
    let j := binScan met log_metallicity 0 (props.AGB_n_z - 1)
    let iz_low := j
    let iz_high0 := iz_low + 1
    let iz_high := if iz_high0 ≥ props.AGB_n_z then props.AGB_n_z - 1 else iz_high0
    let dz0 :=
      if log_metallicity ≥ met 0 ∧ log_metallicity ≤ met (props.AGB_n_z - 1) then
        log_metallicity - met iz_low
      else 0
    let deltaz := met iz_high - met iz_low
    let dz := if deltaz > 0 then dz0 / deltaz else dz0
    (iz_low, iz_high, dz)
  else
    (0, 0, 0)

/-- The final clamp of `dying_mass_msun`:
`if (mass > imf_max_mass_msun) mass = imf_max_mass_msun;`. -/
noncomputable def imfClamp (m : ℝ) : ℝ :=
  if m > imf_max_mass_msun then imf_max_mass_msun else m

/-- The metallicity bracket of the tabulated (Portinari et al. 1998)
branch of `dying_mass_msun` and of `lifetime_in_Gyr`: clamped at the
table ends, otherwise a forward scan with a linear fraction. -/
noncomputable def tableBracket (ax : ℕ → ℝ) (n : ℕ) (q : ℝ) : ℕ × ℝ :=
  if q ≤ ax 0 then (0, 0)
  else if q ≥ ax (n - 1) then (n - 2, 1)
  else
    let j := axisScan ax q 0 (n - 1)
    (j, (q - ax j) / (ax (j + 1) - ax j))

/-- One row's state in the backward time scan of the tabulated
`dying_mass_msun` branch: the C locals `index_time` (an `int`,
`-1` while unfound) and `d_time`. -/
structure timeBracketSt where
  index_time : ℤ
  d_time : ℝ

/-- The backward scan
`i = n_mass; while (i >= 0 && (index_time1 == -1 || index_time2 == -1)) { i--; ... }`
of the tabulated `dying_mass_msun` branch, searching both bracketing
metallicity rows at once.  `fuel` is the C loop variable `i` before the
decrement, so iteration `fuel = k + 1` inspects row entry `k`.  The C
loop would make one further iteration at `i = -1` (an out-of-bounds
read) if an index were still unfound there; that situation is
unreachable because the pre-checks guarantee `r 0 >= la` whenever a row
is still unfound, so the recursion simply stops at fuel `0`. -/
noncomputable def dyingTimeScan (r1 r2 : ℕ → ℝ) (la : ℝ) :
    ℕ → timeBracketSt × timeBracketSt → timeBracketSt × timeBracketSt
  | 0, st => st
  | i + 1, st =>
    if st.1.index_time = -1 ∨ st.2.index_time = -1 then
      let st1 :=
        if r1 i ≥ la ∧ st.1.index_time = -1 then
          (⟨(i : ℤ), (la - r1 i) / (r1 (i + 1) - r1 i)⟩, st.2)
        else st
      let st2 :=
        if r2 i ≥ la ∧ st1.2.index_time = -1 then
          (st1.1, ⟨(i : ℤ), (la - r2 i) / (r2 (i + 1) - r2 i)⟩)
        else st1
      dyingTimeScan r1 r2 la i st2
    else st

/-- The pre-check of the tabulated `dying_mass_msun` branch on one
metallicity row: boundary-clamped time bracket, `-1` (unfound) when the
query lies strictly inside the row's range. -/
noncomputable def timePreCheck (row : ℕ → ℝ) (n_mass : ℕ) (la : ℝ) : timeBracketSt :=
  if la ≥ row 0 then ⟨0, 0⟩
  else if la ≤ row (n_mass - 1) then ⟨(n_mass : ℤ) - 2, 1⟩
  else ⟨-1, 0⟩

/-- `dying_mass_msun` of stars.h: mass of the stars dying at a given age
(in Gyr) and metallicity, under the selected stellar lifetime model.
The `default` case of the C switch calls `error(...)`, modelled as
`none`. -/
noncomputable def dying_mass_msun (age_Gyr metallicity : ℝ)
    (props : stars_props) : Option ℝ :=
  if props.stellar_lifetime_flag = 0 then
    -- padovani & matteucci 1993
    some (imfClamp
      (if age_Gyr > 0.039765318659064693 then
        Real.exp (Real.log 10 *
          (7.764 - (1.79 -
              (1.338 - 0.1116 * (9 + Real.logb 10 age_Gyr)) *
                (1.338 - 0.1116 * (9 + Real.logb 10 age_Gyr))) /
            0.2232))
      else if age_Gyr > 0.003 then
        ((age_Gyr - 0.003) / 1.2) ^ (-1 / 1.85 : ℝ)
      else imf_max_mass_msun))
  else if props.stellar_lifetime_flag = 1 then
    -- maeder & meynet 1989
    some (imfClamp
      (if age_Gyr ≥ 8.4097378 then
        Real.exp (Real.log 10 * (1 - Real.logb 10 age_Gyr) / 0.6545)
      else if age_Gyr ≥ 0.35207776 then
        Real.exp (Real.log 10 * (1.35 - Real.logb 10 age_Gyr) / 3.7)
      else if age_Gyr ≥ 0.050931493 then
        Real.exp (Real.log 10 * (0.77 - Real.logb 10 age_Gyr) / 2.51)
      else if age_Gyr ≥ 0.010529099 then
        Real.exp (Real.log 10 * (0.17 - Real.logb 10 age_Gyr) / 1.78)
      else if age_Gyr ≥ 0.0037734787 then
        Real.exp (Real.log 10 * (-0.94 - Real.logb 10 age_Gyr) / 0.86)
      else if age_Gyr > 0.003 then
        ((age_Gyr - 0.003) / 1.2) ^ (-0.54054053 : ℝ)
      else imf_max_mass_msun))
  else if props.stellar_lifetime_flag = 2 then
    -- portinari et al. 1998
    some (imfClamp
      (if age_Gyr ≤ 0 then imf_max_mass_msun
      else
        let lt := props.lifetimes
        let log_age_yr := Real.logb 10 (age_Gyr * 1.0e9)
        let mz := tableBracket lt.metallicity lt.n_z metallicity
        let metal_index := mz.1
        let d_metal := mz.2
        let st0 := (timePreCheck (lt.dyingtime metal_index) lt.n_mass log_age_yr,
          timePreCheck (lt.dyingtime (metal_index + 1)) lt.n_mass log_age_yr)
        let st := dyingTimeScan (lt.dyingtime metal_index)
          (lt.dyingtime (metal_index + 1)) log_age_yr lt.n_mass st0
        let mass1 := interpol_1d lt.mass st.1.index_time st.1.d_time
        let mass2 := interpol_1d lt.mass st.2.index_time st.2.d_time
        (1.0 - d_metal) * mass1 + d_metal * mass2))
  else none

/-- `lifetime_in_Gyr` of stars.h: lifetime (in Gyr) of a star of the
given mass and metallicity under the selected stellar lifetime model.
The `default` case of the C switch calls `error(...)`, modelled as
`none`. -/
noncomputable def lifetime_in_Gyr (mass metallicity : ℝ)
    (props : stars_props) : Option ℝ :=
  if props.stellar_lifetime_flag = 0 then
    -- PM93 (Padovani & Matteucci 1993)
    some
      (if mass ≤ 0.6 then 160.0
      else if mass ≤ 6.6 then
        (10.0 : ℝ) ^
          (((0.334 - Real.sqrt (1.790 - 0.2232 * (7.764 - Real.logb 10 mass))) /
            0.1116 : ℝ))
      else 1.2 * mass ^ (-1.85 : ℝ) + 0.003)
  else if props.stellar_lifetime_flag = 1 then
    -- MM89 (Maeder & Meynet 1989)
    some
      (if mass ≤ 1.3 then (10.0 : ℝ) ^ ((-0.6545 * Real.logb 10 mass + 1.0 : ℝ))
      else if mass ≤ 3.0 then (10.0 : ℝ) ^ ((-3.7 * Real.logb 10 mass + 1.35 : ℝ))
      else if mass ≤ 7.0 then (10.0 : ℝ) ^ ((-2.51 * Real.logb 10 mass + 0.77 : ℝ))
      else if mass ≤ 15.0 then (10.0 : ℝ) ^ ((-1.78 * Real.logb 10 mass + 0.17 : ℝ))
      else if mass ≤ 60.0 then (10.0 : ℝ) ^ ((-0.86 * Real.logb 10 mass - 0.94 : ℝ))
      else 1.2 * mass ^ (-1.85 : ℝ) + 0.003)
  else if props.stellar_lifetime_flag = 2 then
    -- P98 (Portinari et al. 1998)
    some
      (let lt := props.lifetimes
      let mb := tableBracket lt.mass lt.n_mass mass
      let zb := tableBracket lt.metallicity lt.n_z metallicity
      Real.exp (Real.log 10 *
          interpol_2d lt.dyingtime zb.1 mb.1 zb.2 mb.2) /
        1.0e9)
  else none

/-- The body of `evolve_SNIa` past the integration-limit adjustment:
`clock` is the (possibly advanced) `sp->time_since_enrich_Gyr` and
`dtG` the (possibly adjusted) `dt_Gyr` at the point where the C code
computes `num_of_SNIa_per_msun`. -/
noncomputable def SNIa_transfer (props : stars_props) (sp : spart)
    (clock dtG : ℝ) : spart :=
  let num := props.SNIa_efficiency *
    (Real.exp (-clock / props.SNIa_timescale) -
      Real.exp (-(clock + dtG) / props.SNIa_timescale))
  let base := { sp with time_since_enrich_Gyr := clock, num_snia := num }
  if props.SNIa_mass_transfer = 1 then
    { base with
      metals_released := fun i =>
        if i < chemistry_element_count then
          sp.metals_released i + num * props.yield_SNIa_SPH i
        else sp.metals_released i
      chemistry_data := { sp.chemistry_data with
        mass_from_SNIa := sp.chemistry_data.mass_from_SNIa +
          num * props.yield_SNIa_total_metals_SPH
        metal_mass_fraction_from_SNIa :=
          sp.chemistry_data.metal_mass_fraction_from_SNIa +
            num * props.yield_SNIa_total_metals_SPH
        iron_mass_fraction_from_SNIa :=
          sp.chemistry_data.iron_mass_fraction_from_SNIa +
            num * props.yield_SNIa_SPH chemistry_element_Fe }
      metal_mass_released := sp.metal_mass_released +
        num * props.yield_SNIa_total_metals_SPH }
  else
    { base with
      chemistry_data := { sp.chemistry_data with
        iron_mass_fraction_from_SNIa := 0
        metal_mass_fraction_from_SNIa := 0
        mass_from_SNIa := 0 } }

/-- `evolve_SNIa` of stars.h.  The call to `lifetime_in_Gyr` can only
abort (via the unknown-lifetime-model `error`) when the model selector
is invalid, hence the `Option`. -/
noncomputable def evolve_SNIa (log10_min_mass log10_max_mass : ℝ)
    (props : stars_props) (sp : spart) (dt_Gyr : ℝ) : Option spart :=
  if log10_min_mass ≥ log10_SNIa_max_mass_msun then some sp
  else if log10_max_mass > log10_SNIa_max_mass_msun then
    (lifetime_in_Gyr (Real.exp (Real.log 10 * log10_SNIa_max_mass_msun))
        sp.chemistry_data.metal_mass_fraction_total props).bind fun lifetime_Gyr =>
      some (SNIa_transfer props sp lifetime_Gyr
        (sp.time_since_enrich_Gyr + dt_Gyr - lifetime_Gyr))
  else
    some (SNIa_transfer props sp sp.time_since_enrich_Gyr dt_Gyr)

/-- The intermediate quantities of one SNII or AGB channel run, before
the normalization decision. -/
structure channelParts where
  loClamped : ℝ
  hiClamped : ℝ
  metalsC : ℕ → ℝ
  massC : ℝ
  norm0 : ℝ
  norm1 : ℝ
  outBuf : ℕ → ℝ

section Channels

-- `integrate_imf` of `imf.h` (not among the sources at hand), modelled
-- from the spec as a parameter: integrates the IMF times the supplied
-- per-mass-bin weight array over a log-mass range, for a given exponent
-- and integration-mode selector.  Its only dependence on the properties
-- record in C is the IMF bin grid fixed at initialization, which lies
-- outside the modelled state, so the parameter does not take the record.
variable (im : ℝ → ℝ → ℝ → ℤ → (ℕ → ℝ) → ℝ)

-- `determine_imf_bins` of `imf.h` (not among the sources at hand),
-- modelled from the spec as a parameter: the pair of precomputed IMF
-- mass-bin indices bracketing a log-mass range (same remark about the
-- IMF bin grid as for the integrator).
variable (db : ℝ → ℝ → ℕ × ℕ)

-- The global `log_min_metallicity` of `yield_tables.h` (not among the
-- sources at hand), kept as a parameter.
variable (lmm : ℝ)

/-- The computation of `evolve_SNII` up to the normalization decision:
clamped range, IMF bins, metallicity bracket, the three successive
fill-then-integrate passes over the scratch buffer `stellar_yield`
(`buf`), the negative-value clamps, and `norm0`/`norm1`. -/
noncomputable def SNII_parts (props : stars_props) (sp : spart)
    (buf : ℕ → ℝ) (log10_min_mass log10_max_mass : ℝ) : channelParts :=
  let lo := if log10_min_mass < log10_SNII_min_mass_msun then
    log10_SNII_min_mass_msun else log10_min_mass
  let hi := if log10_max_mass > log10_SNII_max_mass_msun then
    log10_SNII_max_mass_msun else log10_max_mass
  let bins := db lo hi
  let ilow := bins.1
  let ihigh := bins.2
  let zbin := determine_bin_yield lmm props
    (Real.logb 10 sp.chemistry_data.metal_mass_fraction_total)
  let iz_low := zbin.1
  let iz_high := zbin.2.1
  let dz := zbin.2.2
  -- per-element buffer fill (the loop over imass for a fixed element i)
  let yieldElem : ℕ → ℕ → ℝ := fun i imass =>
    if ilow ≤ imass ∧ imass ≤ ihigh then
      (1 - dz) * (props.yield_SNII.SPH
            (row_major_index_3d iz_low i imass props.SNII_n_z
              chemistry_element_count props.SNII_n_mass) +
          sp.chemistry_data.metal_mass_fraction i * props.yield_SNII.ejecta_SPH
            (row_major_index_2d iz_low imass props.SNII_n_z props.SNII_n_mass)) +
        dz * (props.yield_SNII.SPH
            (row_major_index_3d iz_high i imass props.SNII_n_z
              chemistry_element_count props.SNII_n_mass) +
          sp.chemistry_data.metal_mass_fraction i * props.yield_SNII.ejecta_SPH
            (row_major_index_2d iz_high imass props.SNII_n_z props.SNII_n_mass))
    else buf imass
  let metals : ℕ → ℝ := fun i => im lo hi 0 2 (yieldElem i)
  -- total-metal buffer fill
  let yieldTot : ℕ → ℝ := fun imass =>
    if ilow ≤ imass ∧ imass ≤ ihigh then
      (1 - dz) * (props.yield_SNII.total_metals_SPH
            (row_major_index_2d iz_low imass props.SNII_n_z props.SNII_n_mass) +
          sp.chemistry_data.metal_mass_fraction_total * props.yield_SNII.ejecta_SPH
            (row_major_index_2d iz_low imass props.SNII_n_z props.SNII_n_mass)) +
        dz * (props.yield_SNII.total_metals_SPH
            (row_major_index_2d iz_high imass props.SNII_n_z props.SNII_n_mass) +
          sp.chemistry_data.metal_mass_fraction_total * props.yield_SNII.ejecta_SPH
            (row_major_index_2d iz_high imass props.SNII_n_z props.SNII_n_mass))
    else buf imass
  let mass := im lo hi 0 2 yieldTot
  -- zero all negative values
  let metalsC : ℕ → ℝ := fun i => if metals i < 0 then 0 else metals i
  let massC := if mass < 0 then 0 else mass
  -- pure table ejecta-mass buffer fill
  let yieldEjecta : ℕ → ℝ := fun imass =>
    if ilow ≤ imass ∧ imass ≤ ihigh then
      (1 - dz) * props.yield_SNII.ejecta_SPH
          (row_major_index_2d iz_low imass props.SNII_n_z props.SNII_n_mass) +
        dz * props.yield_SNII.ejecta_SPH
          (row_major_index_2d iz_high imass props.SNII_n_z props.SNII_n_mass)
    else buf imass
  let norm0 := im lo hi 0 2 yieldEjecta
  let norm1 := massC + metalsC chemistry_element_H + metalsC chemistry_element_He
  ⟨lo, hi, metalsC, massC, norm0, norm1, yieldEjecta⟩

/-- `evolve_SNII` of stars.h.  Returns the updated particle and scratch
buffer; `none` is the `error("wrong normalization!!!! ...")` abort. -/
noncomputable def evolve_SNII (props : stars_props) (sp : spart) (buf : ℕ → ℝ)
    (log10_min_mass log10_max_mass : ℝ) : Option (spart × (ℕ → ℝ)) :=
  let P := SNII_parts im db lmm props sp buf log10_min_mass log10_max_mass
  if P.loClamped ≥ P.hiClamped then some (sp, buf)
  else
    let k := P.norm0 / P.norm1
    if props.SNII_mass_transfer = 1 then
      if P.norm1 > 0 then
        some
          ({ sp with
            metals_released := fun i =>
              if i < chemistry_element_count then
                sp.metals_released i + P.metalsC i * k
              else sp.metals_released i
            chemistry_data := { sp.chemistry_data with
              mass_from_SNII := sp.chemistry_data.mass_from_SNII +
                ∑ i ∈ Finset.range chemistry_element_count, P.metalsC i * k
              metal_mass_fraction_from_SNII :=
                sp.chemistry_data.metal_mass_fraction_from_SNII + P.massC * k }
            metal_mass_released := sp.metal_mass_released + P.massC * k },
          P.outBuf)
      else none
    else
      some
        ({ sp with
          chemistry_data := { sp.chemistry_data with
            mass_from_SNII := 0
            metal_mass_fraction_from_SNII := 0 } },
        P.outBuf)

/-- The computation of `evolve_AGB` up to the normalization decision;
structurally identical to `SNII_parts` but on the AGB window and
tables. -/
noncomputable def AGB_parts (props : stars_props) (sp : spart)
    (buf : ℕ → ℝ) (log10_min_mass log10_max_mass : ℝ) : channelParts :=
  let lo := log10_min_mass
  let hi := if log10_max_mass > log10_SNII_min_mass_msun then
    log10_SNII_min_mass_msun else log10_max_mass
  let bins := db lo hi
  let ilow := bins.1
  let ihigh := bins.2
  let zbin := determine_bin_yield lmm props
    (Real.logb 10 sp.chemistry_data.metal_mass_fraction_total)
  let iz_low := zbin.1
  let iz_high := zbin.2.1
  let dz := zbin.2.2
  let yieldElem : ℕ → ℕ → ℝ := fun i imass =>
    if ilow ≤ imass ∧ imass ≤ ihigh then
      (1 - dz) * (props.yield_AGB.SPH
            (row_major_index_3d iz_low i imass props.AGB_n_z
              chemistry_element_count props.AGB_n_mass) +
          sp.chemistry_data.metal_mass_fraction i * props.yield_AGB.ejecta_SPH
            (row_major_index_2d iz_low imass props.AGB_n_z props.AGB_n_mass)) +
        dz * (props.yield_AGB.SPH
            (row_major_index_3d iz_high i imass props.AGB_n_z
              chemistry_element_count props.AGB_n_mass) +
          sp.chemistry_data.metal_mass_fraction i * props.yield_AGB.ejecta_SPH
            (row_major_index_2d iz_high imass props.AGB_n_z props.AGB_n_mass))
    else buf imass
  let metals : ℕ → ℝ := fun i => im lo hi 0 2 (yieldElem i)
  let yieldTot : ℕ → ℝ := fun imass =>
    if ilow ≤ imass ∧ imass ≤ ihigh then
      (1 - dz) * (props.yield_AGB.total_metals_SPH
            (row_major_index_2d iz_low imass props.AGB_n_z props.AGB_n_mass) +
          sp.chemistry_data.metal_mass_fraction_total * props.yield_AGB.ejecta_SPH
            (row_major_index_2d iz_low imass props.AGB_n_z props.AGB_n_mass)) +
        dz * (props.yield_AGB.total_metals_SPH
            (row_major_index_2d iz_high imass props.AGB_n_z props.AGB_n_mass) +
          sp.chemistry_data.metal_mass_fraction_total * props.yield_AGB.ejecta_SPH
            (row_major_index_2d iz_high imass props.AGB_n_z props.AGB_n_mass))
    else buf imass
  let mass := im lo hi 0 2 yieldTot
  let metalsC : ℕ → ℝ := fun i => if metals i < 0 then 0 else metals i
  let massC := if mass < 0 then 0 else mass
  let yieldEjecta : ℕ → ℝ := fun imass =>
    if ilow ≤ imass ∧ imass ≤ ihigh then
      (1 - dz) * props.yield_AGB.ejecta_SPH
          (row_major_index_2d iz_low imass props.AGB_n_z props.AGB_n_mass) +
        dz * props.yield_AGB.ejecta_SPH
          (row_major_index_2d iz_high imass props.AGB_n_z props.AGB_n_mass)
    else buf imass
  let norm0 := im lo hi 0 2 yieldEjecta
  let norm1 := massC + metalsC chemistry_element_H + metalsC chemistry_element_He
  ⟨lo, hi, metalsC, massC, norm0, norm1, yieldEjecta⟩

/-- `evolve_AGB` of stars.h.  Skips entirely when the AGB mass-transfer
toggle is off; `none` is the `error("wrong normalization!!!! ...")`
abort, reached (unconditionally, unlike SNII) when the channel runs and
`norm1 <= 0`. -/
noncomputable def evolve_AGB (props : stars_props) (sp : spart) (buf : ℕ → ℝ)
    (log10_min_mass log10_max_mass : ℝ) : Option (spart × (ℕ → ℝ)) :=
  if props.AGB_mass_transfer = 0 then some (sp, buf)
  else
    let P := AGB_parts im db lmm props sp buf log10_min_mass log10_max_mass
    if P.loClamped ≥ P.hiClamped then some (sp, buf)
    else
      let k := P.norm0 / P.norm1
      if P.norm1 > 0 then
        some
          ({ sp with
            metals_released := fun i =>
              if i < chemistry_element_count then
                sp.metals_released i + P.metalsC i * k
              else sp.metals_released i
            chemistry_data := { sp.chemistry_data with
              mass_from_AGB := sp.chemistry_data.mass_from_AGB +
                ∑ i ∈ Finset.range chemistry_element_count, P.metalsC i * k
              metal_mass_fraction_from_AGB :=
                sp.chemistry_data.metal_mass_fraction_from_AGB + P.massC * k }
            metal_mass_released := sp.metal_mass_released + P.massC * k },
          P.outBuf)
      else none

/-- `compute_stellar_evolution` of stars.h: the per-step driver.
`none` covers the unknown-lifetime-model abort (through
`dying_mass_msun`), the `min dying mass is greater than max dying mass`
abort, and the channels' normalization aborts. -/
noncomputable def compute_stellar_evolution (props : stars_props)
    (sp : spart) (buf : ℕ → ℝ) (dt : ℝ) : Option (spart × (ℕ → ℝ)) :=
  let convert_time_to_Gyr : ℝ := 1.0
  let dt_Gyr := dt * convert_time_to_Gyr
  let age_of_star_Gyr := sp.age * convert_time_to_Gyr
  (dying_mass_msun age_of_star_Gyr
      sp.chemistry_data.metal_mass_fraction_total props).bind fun mmax =>
    (dying_mass_msun (age_of_star_Gyr + dt_Gyr)
        sp.chemistry_data.metal_mass_fraction_total props).bind fun mmin =>
      let log10_max_dying_mass := Real.logb 10 mmax
      let log10_min_dying_mass := Real.logb 10 mmin
      if log10_min_dying_mass > log10_max_dying_mass then none
      else if log10_min_dying_mass = log10_max_dying_mass then some (sp, buf)
      else
        (evolve_SNIa log10_min_dying_mass log10_max_dying_mass props sp
            dt_Gyr).bind fun sp1 =>
          (evolve_SNII im db lmm props sp1 buf log10_min_dying_mass
              log10_max_dying_mass).bind fun r =>
            evolve_AGB im db lmm props r.1 r.2 log10_min_dying_mass
              log10_max_dying_mass

/-- `stars_evolve_spart` of stars.h: resets the per-step accumulators
and runs the driver. -/
noncomputable def stars_evolve_spart (props : stars_props) (sp : spart)
    (buf : ℕ → ℝ) (dt : ℝ) : Option (spart × (ℕ → ℝ)) :=
  let sp0 := { sp with
    num_snia := 0
    metals_released := fun i =>
      if i < chemistry_element_count then 0 else sp.metals_released i
    metal_mass_released := 0
    chemistry_data := { sp.chemistry_data with
      mass_from_AGB := 0
      metal_mass_fraction_from_AGB := 0
      mass_from_SNII := 0
      metal_mass_fraction_from_SNII := 0
      mass_from_SNIa := 0
      metal_mass_fraction_from_SNIa := 0
      iron_mass_fraction_from_SNIa := 0 } }
  compute_stellar_evolution im db lmm props sp0 buf dt

end Channels

/-! ## Shared facts about base-10 logarithms and exponentials -/

lemma log_ten_pos : (0 : ℝ) < Real.log 10 :=
  Real.log_pos (by norm_num)

lemma logb_ten_exp_mul (x : ℝ) :
    Real.logb 10 (Real.exp (Real.log 10 * x)) = x := by
  rw [Real.logb, Real.log_exp, mul_comm, mul_div_assoc, div_self log_ten_pos.ne',
    mul_one]

lemma exp_log_ten_lt {x y : ℝ} :
    Real.exp (Real.log 10 * x) < Real.exp (Real.log 10 * y) ↔ x < y := by
  rw [Real.exp_lt_exp]
  exact mul_lt_mul_left log_ten_pos

lemma exp_log_ten_le {x y : ℝ} :
    Real.exp (Real.log 10 * x) ≤ Real.exp (Real.log 10 * y) ↔ x ≤ y := by
  rw [Real.exp_le_exp]
  exact mul_le_mul_left log_ten_pos

lemma exp_log_ten_nat (n : ℕ) :
    Real.exp (Real.log 10 * n) = (10 : ℝ) ^ n := by
  rw [mul_comm, Real.exp_nat_mul, Real.exp_log (by norm_num : (0:ℝ) < 10)]

/-! ## Loop invariants of the forward metallicity scan -/

lemma binScan_ge (met : ℕ → ℝ) (z : ℝ) (j fuel : ℕ) :
    j ≤ binScan met z j fuel := by
  induction fuel generalizing j with
  | zero => simp [binScan]
  | succ n ih =>
    rw [binScan]
    split
    · exact le_trans (Nat.le_succ j) (ih (j + 1))
    · exact le_refl j

lemma binScan_le (met : ℕ → ℝ) (z : ℝ) (j fuel : ℕ) :
    binScan met z j fuel ≤ j + fuel := by
  induction fuel generalizing j with
  | zero => simp [binScan]
  | succ n ih =>
    rw [binScan]
    split
    · exact le_trans (ih (j + 1)) (by omega)
    · omega

lemma binScan_stop (met : ℕ → ℝ) (z : ℝ) (j fuel : ℕ) :
    binScan met z j fuel = j + fuel ∨ z ≤ met (binScan met z j fuel + 1) := by
  induction fuel generalizing j with
  | zero => left; simp [binScan]
  | succ n ih =>
    rw [binScan]
    split
    · rcases ih (j + 1) with h | h
      · left; omega
      · right; exact h
    · right; linarith [not_lt.mp (by simpa using ‹¬z > met (j + 1)›)]

lemma binScan_mem (met : ℕ → ℝ) (z : ℝ) (j fuel : ℕ) :
    ∀ k, j ≤ k → k < binScan met z j fuel → z > met (k + 1) := by
  induction fuel generalizing j with
  | zero => intro k h1 h2; simp [binScan] at h2; omega
  | succ n ih =>
    intro k h1 h2
    rw [binScan] at h2
    by_cases hc : z > met (j + 1)
    · rw [if_pos hc] at h2
      rcases Nat.eq_or_lt_of_le h1 with rfl | hlt
      · exact hc
      · exact ih (j + 1) k hlt h2
    · rw [if_neg hc] at h2; omega

/-- C2: for every query (below the floor sentinel, inside the table, or
above its maximum) and every strictly increasing metallicity axis,
`determine_bin_yield` returns `iz_low <= iz_high` with `iz_high` at most
the last valid row, an interpolation fraction in `[0,1]`, and fraction
`0` whenever the bracketing axis values have zero width. -/
theorem determine_bin_yield_bracket (lmm : ℝ) (props : stars_props) (z : ℝ)
    (hnz : 1 ≤ props.AGB_n_z)
    (hmono : ∀ i j : ℕ, i < j → j < props.AGB_n_z →
      props.yield_AGB.metallicity i < props.yield_AGB.metallicity j) :
    (determine_bin_yield lmm props z).1 ≤ (determine_bin_yield lmm props z).2.1 ∧
      (determine_bin_yield lmm props z).2.1 ≤ props.AGB_n_z - 1 ∧
      0 ≤ (determine_bin_yield lmm props z).2.2 ∧
      (determine_bin_yield lmm props z).2.2 ≤ 1 ∧
      (props.yield_AGB.metallicity (determine_bin_yield lmm props z).2.1 =
          props.yield_AGB.metallicity (determine_bin_yield lmm props z).1 →
        (determine_bin_yield lmm props z).2.2 = 0) := by
  rcases le_or_lt z lmm with hzle | hz
  · rw [determine_bin_yield, if_neg (not_lt.mpr hzle)]
    exact ⟨le_refl _, Nat.zero_le _, le_refl _, by norm_num, fun _ => rfl⟩
  · obtain ⟨met, hmet⟩ : ∃ f, f = props.yield_AGB.metallicity := ⟨_, rfl⟩
    obtain ⟨n, hn⟩ : ∃ m, m = props.AGB_n_z := ⟨_, rfl⟩
    rw [← hn] at hnz
    rw [← hmet, ← hn] at hmono
    rw [determine_bin_yield, if_pos hz]
    simp only [← hmet, ← hn]
    obtain ⟨j, hj⟩ : ∃ k, k = binScan met z 0 (n - 1) := ⟨_, rfl⟩
    rw [← hj]
    have hj_le : j ≤ n - 1 := by
      have := binScan_le met z 0 (n - 1); omega
    by_cases hclamp : j + 1 ≥ n
    · -- clamped: iz_low = iz_high = n - 1
      have hjn : j = n - 1 := by omega
      rw [if_pos hclamp]
      have hzero : (if z ≥ met 0 ∧ z ≤ met (n - 1) then z - met j else 0) = 0 := by
        by_cases hn1 : n = 1
        · subst hn1
          have hj0 : j = 0 := by omega
          split
          · next h =>
            rw [hj0]
            norm_num at h ⊢
            linarith [h.1, h.2]
          · rfl
        · have h2 : 2 ≤ n := by omega
          have hpass : z > met (n - 2 + 1) := by
            apply binScan_mem met z 0 (n - 1) (n - 2) (Nat.zero_le _)
            rw [← hj]; omega
          have hidx : n - 2 + 1 = n - 1 := by omega
          rw [hidx] at hpass
          rw [if_neg]
          rintro ⟨-, hle⟩
          linarith
      rw [hzero]
      have hnw : ¬(met (n - 1) - met j > 0) := by rw [hjn]; simp
      rw [if_neg hnw]
      exact ⟨by omega, le_refl _, le_refl _, by norm_num, fun _ => rfl⟩
    · -- unclamped: iz_high = j + 1 < n
      rw [if_neg hclamp]
      push_neg at hclamp
      have hdelta : met (j + 1) - met j > 0 := by
        have := hmono j (j + 1) (by omega) hclamp
        linarith
      rw [if_pos hdelta]
      refine ⟨by omega, by omega, ?_, ?_, ?_⟩
      · -- 0 ≤ dz
        apply div_nonneg _ (le_of_lt hdelta)
        split
        · next hin =>
          by_cases hj0 : j = 0
          · rw [hj0]; linarith [hin.1]
          · have hmem := binScan_mem met z 0 (n - 1) (j - 1) (Nat.zero_le _)
              (by rw [← hj]; omega)
            have hidx : j - 1 + 1 = j := by omega
            rw [hidx] at hmem
            linarith
        · exact le_refl 0
      · -- dz ≤ 1
        split
        · next hin =>
          have hup : z ≤ met (j + 1) := by
            rcases binScan_stop met z 0 (n - 1) with hstop | hstop
            · rw [← hj] at hstop; exfalso; omega
            · rw [← hj] at hstop; exact hstop
          rw [div_le_one hdelta]
          linarith
        · rw [zero_div]; norm_num
      · -- zero width is impossible in the unclamped case
        intro habs
        exfalso
        linarith

/-! ## Concrete fixtures used by witnesses and counterexamples -/

/-- An all-zero yield table. -/
noncomputable def zeroYields : yield_table :=
  { metallicity := fun _ => 0
    SPH := fun _ => 0
    ejecta_SPH := fun _ => 0
    total_metals_SPH := fun _ => 0 }

/-- A 2x2 lifetime table whose log-dying-time grid is constantly `9`
(so every interpolated lifetime is `10^9 yr = 1 Gyr`), over the mass
axis `[1, 10]` and metallicity axis `[0, 1]`. -/
noncomputable def flatLifetimes : lifetime_table :=
  { n_mass := 2
    n_z := 2
    mass := fun i => if i = 0 then 1 else 10
    metallicity := fun i => if i = 0 then 0 else 1
    dyingtime := fun _ _ => 9 }

/-- A baseline property set: tabulated lifetime model over
`flatLifetimes`, unit SNIa efficiency and timescale, all mass-transfer
toggles off. -/
noncomputable def baseProps : stars_props :=
  { yield_AGB := zeroYields
    yield_SNII := zeroYields
    yield_SNIa_SPH := fun _ => 0
    yield_SNIa_total_metals_SPH := 0
    SNIa_efficiency := 1
    SNIa_timescale := 1
    SNIa_mass_transfer := 0
    SNII_mass_transfer := 0
    AGB_mass_transfer := 0
    SNII_n_mass := 0
    SNII_n_z := 0
    AGB_n_mass := 0
    AGB_n_z := 0
    lifetimes := flatLifetimes
    stellar_lifetime_flag := 2 }

/-- Properties with a three-row strictly increasing AGB metallicity
axis `0, 1, 2`. -/
noncomputable def bracketSampleProps : stars_props :=
  { baseProps with
    AGB_n_z := 3
    yield_AGB := { zeroYields with metallicity := fun i => (i : ℝ) } }

/-- Witness for C2 at a concrete axis and query. -/
theorem determine_bin_yield_bracket_witness :
    (determine_bin_yield (-1) bracketSampleProps (3 / 2)).1 ≤
        (determine_bin_yield (-1) bracketSampleProps (3 / 2)).2.1 ∧
      (determine_bin_yield (-1) bracketSampleProps (3 / 2)).2.1 ≤
        bracketSampleProps.AGB_n_z - 1 ∧
      0 ≤ (determine_bin_yield (-1) bracketSampleProps (3 / 2)).2.2 ∧
      (determine_bin_yield (-1) bracketSampleProps (3 / 2)).2.2 ≤ 1 ∧
      (bracketSampleProps.yield_AGB.metallicity
            (determine_bin_yield (-1) bracketSampleProps (3 / 2)).2.1 =
          bracketSampleProps.yield_AGB.metallicity
            (determine_bin_yield (-1) bracketSampleProps (3 / 2)).1 →
        (determine_bin_yield (-1) bracketSampleProps (3 / 2)).2.2 = 0) :=
  determine_bin_yield_bracket (-1) bracketSampleProps (3 / 2)
    (by norm_num [bracketSampleProps, baseProps])
    (by
      intro i j hij hj
      simp only [bracketSampleProps, zeroYields]
      exact_mod_cast hij)

/-! ## Evaluation of the tabulated lifetime at the SNIa cap mass -/

lemma cap_mass_gt_one : (1 : ℝ) < Real.exp (Real.log 10 * log10_SNIa_max_mass_msun) := by
  have h := exp_log_ten_lt (x := 0) (y := log10_SNIa_max_mass_msun)
  rw [mul_zero, Real.exp_zero] at h
  exact h.mpr (by norm_num [log10_SNIa_max_mass_msun])

lemma cap_mass_lt_ten : Real.exp (Real.log 10 * log10_SNIa_max_mass_msun) < 10 := by
  have h := exp_log_ten_lt (x := log10_SNIa_max_mass_msun) (y := 1)
  rw [mul_one, Real.exp_log (by norm_num : (0:ℝ) < 10)] at h
  exact h.mpr (by norm_num [log10_SNIa_max_mass_msun])

lemma tableBracket_low (ax : ℕ → ℝ) (n : ℕ) (q : ℝ) (h0 : q ≤ ax 0) :
    tableBracket ax n q = (0, 0) := by
  rw [tableBracket, if_pos h0]

lemma tableBracket_two (ax : ℕ → ℝ) (q : ℝ) (h0 : ¬(q ≤ ax 0))
    (hlt : q < ax 1) :
    tableBracket ax 2 q = (0, (q - ax 0) / (ax 1 - ax 0)) := by
  have h1 : ¬(q ≥ ax (2 - 1)) := not_le.mpr hlt
  rw [tableBracket, if_neg h0, if_neg h1]
  simp only [show (2 : ℕ) - 1 = 1 from rfl]
  rw [show axisScan ax q 0 1 = if ax 1 > q then 0 else axisScan ax q 1 0 from rfl]
  rw [if_pos hlt]

/-- On `baseProps` (all-`9` dying-time grid) the lifetime at the SNIa
cap mass evaluates to exactly `1` Gyr, for zero metallicity. -/
lemma lifetime_cap_baseProps :
    lifetime_in_Gyr (Real.exp (Real.log 10 * log10_SNIa_max_mass_msun)) 0
      baseProps = some 1 := by
  have h1 := cap_mass_gt_one
  have h10 := cap_mass_lt_ten
  rw [lifetime_in_Gyr]
  rw [if_neg (by norm_num [baseProps]), if_neg (by norm_num [baseProps]),
    if_pos (by norm_num [baseProps] : baseProps.stellar_lifetime_flag = 2)]
  simp only [baseProps, flatLifetimes]
  rw [tableBracket_two _ _ (not_le.mpr h1) h10]
  rw [tableBracket_low _ _ _ (le_refl 0)]
  simp only [interpol_2d]
  norm_num
  have harg : (1 - (Real.exp (Real.log 10 * log10_SNIa_max_mass_msun) - 1) / (9 : ℝ)) *
        (9 : ℝ) + (Real.exp (Real.log 10 * log10_SNIa_max_mass_msun) - 1) =
      (9 : ℝ) := by
    field_simp
  rw [harg]
  rw [show (9 : ℝ) = ((9 : ℕ) : ℝ) by norm_num, exp_log_ten_nat]
  norm_num

/-! ## C1: the SNIa event-count formula -/

/-- All-zero particle chemistry data. -/
noncomputable def zeroChem : chemistry_part_data :=
  { metal_mass_fraction_total := 0
    metal_mass_fraction := fun _ => 0
    mass_from_SNIa := 0
    metal_mass_fraction_from_SNIa := 0
    iron_mass_fraction_from_SNIa := 0
    mass_from_SNII := 0
    metal_mass_fraction_from_SNII := 0
    mass_from_AGB := 0
    metal_mass_fraction_from_AGB := 0 }

/-- A particle with zero accumulators, zero enrichment clock and zero
metallicity. -/
noncomputable def sampleSpart : spart :=
  { age := 0
    chemistry_data := zeroChem
    metals_released := fun _ => 0
    metal_mass_released := 0
    num_snia := 0
    time_since_enrich_Gyr := 0 }

/-- Counterexample to C1 as stated: with the `baseProps` lifetime table
(`lifetime_at_cap = 1` exactly), clock-before `0`, `dt = 2` and a mass
range straddling the cap, the code records
`eff * (exp(-L/tau) - exp(-(clock_before + dt)/tau))`, which differs
from the claim's
`eff * (exp(-clock_before/tau) - exp(-(clock_before + dt_adjusted)/tau))`
with `dt_adjusted = clock_before + dt - lifetime_at_cap`. -/
theorem evolve_SNIa_clock_before_cex :
    lifetime_in_Gyr (Real.exp (Real.log 10 * log10_SNIa_max_mass_msun))
        sampleSpart.chemistry_data.metal_mass_fraction_total baseProps = some 1 ∧
      (evolve_SNIa 0 1 baseProps sampleSpart 2).map (fun s => s.num_snia) ≠
        some (baseProps.SNIa_efficiency *
          (Real.exp (-sampleSpart.time_since_enrich_Gyr / baseProps.SNIa_timescale) -
            Real.exp (-(sampleSpart.time_since_enrich_Gyr +
                (sampleSpart.time_since_enrich_Gyr + 2 - 1)) /
              baseProps.SNIa_timescale))) := by
  have hlife : lifetime_in_Gyr (Real.exp (Real.log 10 * log10_SNIa_max_mass_msun))
      sampleSpart.chemistry_data.metal_mass_fraction_total baseProps = some 1 := by
    simpa [sampleSpart, zeroChem] using lifetime_cap_baseProps
  refine ⟨hlife, ?_⟩
  rw [evolve_SNIa, if_neg (by norm_num [log10_SNIa_max_mass_msun]),
    if_pos (by norm_num [log10_SNIa_max_mass_msun] : (1:ℝ) > log10_SNIa_max_mass_msun),
    hlife]
  simp only [Option.some_bind, Option.map_some', SNIa_transfer,
    if_neg (by norm_num [baseProps] : ¬(baseProps.SNIa_mass_transfer = 1))]
  simp only [baseProps, sampleSpart, zeroChem]
  intro habs
  simp only [Option.map_some', Option.some_inj] at habs
  norm_num at habs
  -- habs : exp (-1) - exp (-2) = 1 - exp (-1); refuted since (1 - exp (-1))^2 > 0
  have hx : Real.exp (-1) < 1 := Real.exp_lt_one_iff.mpr (by norm_num)
  have hsq : Real.exp (-2) = Real.exp (-1) * Real.exp (-1) := by
    rw [← Real.exp_add]; norm_num
  nlinarith [hx, hsq, sq_nonneg (1 - Real.exp (-1))]

/-- C1 (amended): for an SNIa invocation whose minimum dying mass lies
below the cap, the recorded event count is
`eff * (exp(-clock_after/tau) - exp(-(clock_after + dt_adjusted)/tau))`
where `clock_after` is the enrichment clock *after* the channel's
adjustment: when the maximum dying mass exceeds the cap,
`clock_after = lifetime_at_cap` and
`dt_adjusted = clock_before + dt - lifetime_at_cap`; otherwise
`clock_after = clock_before` and `dt_adjusted = dt`. -/
theorem evolve_SNIa_event_count (props : stars_props) (sp : spart)
    (lo hi dtG L : ℝ)
    (hlo : ¬(lo ≥ log10_SNIa_max_mass_msun))
    (hL : lifetime_in_Gyr (Real.exp (Real.log 10 * log10_SNIa_max_mass_msun))
      sp.chemistry_data.metal_mass_fraction_total props = some L) :
    (hi > log10_SNIa_max_mass_msun →
      (evolve_SNIa lo hi props sp dtG).map
          (fun s => (s.num_snia, s.time_since_enrich_Gyr)) =
        some (props.SNIa_efficiency *
            (Real.exp (-L / props.SNIa_timescale) -
              Real.exp (-(L + (sp.time_since_enrich_Gyr + dtG - L)) /
                props.SNIa_timescale)),
          L)) ∧
    (¬(hi > log10_SNIa_max_mass_msun) →
      (evolve_SNIa lo hi props sp dtG).map
          (fun s => (s.num_snia, s.time_since_enrich_Gyr)) =
        some (props.SNIa_efficiency *
            (Real.exp (-sp.time_since_enrich_Gyr / props.SNIa_timescale) -
              Real.exp (-(sp.time_since_enrich_Gyr + dtG) /
                props.SNIa_timescale)),
          sp.time_since_enrich_Gyr)) := by
  constructor
  · intro hcap
    rw [evolve_SNIa, if_neg hlo, if_pos hcap, hL]
    simp only [Option.some_bind, Option.map_some', SNIa_transfer]
    by_cases ht : props.SNIa_mass_transfer = 1
    · rw [if_pos ht]
    · rw [if_neg ht]
  · intro hcap
    rw [evolve_SNIa, if_neg hlo, if_neg hcap]
    simp only [SNIa_transfer]
    by_cases ht : props.SNIa_mass_transfer = 1
    · rw [if_pos ht]; rfl
    · rw [if_neg ht]; rfl

/-- Witness for the amended C1, in the cap-exceeded case on the
`baseProps` fixture where the lifetime at the cap is exactly `1`. -/
theorem evolve_SNIa_event_count_witness :
    (evolve_SNIa 0 1 baseProps sampleSpart 2).map
        (fun s => (s.num_snia, s.time_since_enrich_Gyr)) =
      some (baseProps.SNIa_efficiency *
          (Real.exp (-1 / baseProps.SNIa_timescale) -
            Real.exp (-(1 + (sampleSpart.time_since_enrich_Gyr + 2 - 1)) /
              baseProps.SNIa_timescale)),
        1) := by
  have h := evolve_SNIa_event_count baseProps sampleSpart 0 1 2 1
    (by norm_num [log10_SNIa_max_mass_msun])
    (by simpa [sampleSpart, zeroChem] using lifetime_cap_baseProps)
  exact h.1 (by norm_num [log10_SNIa_max_mass_msun])

/-! ## C3: the SNII/AGB normalization invariant -/

/-- An IMF integrator stub that returns `1` on every input, used to
instantiate witnesses (the normalization identity holds for every
integrator). -/
noncomputable def unitIntegrator : ℝ → ℝ → ℝ → ℤ → (ℕ → ℝ) → ℝ :=
  fun _ _ _ _ _ => 1

/-- An IMF bin-locator stub returning bin bracket `(0, 0)`. -/
def zeroBinsFn : ℝ → ℝ → ℕ × ℕ := fun _ _ => (0, 0)

/-- `baseProps` with the SNII and AGB mass-transfer toggles on. -/
noncomputable def transferProps : stars_props :=
  { baseProps with SNII_mass_transfer := 1, AGB_mass_transfer := 1 }

lemma norm_scale_sum (a b c n0 n1 : ℝ) (hsum : n1 = a + b + c) (hpos : n1 > 0) :
    a * (n0 / n1) + (b * (n0 / n1) + c * (n0 / n1)) = n0 := by
  have h4 : n1 ≠ 0 := ne_of_gt hpos
  calc a * (n0 / n1) + (b * (n0 / n1) + c * (n0 / n1))
      = (a + b + c) * (n0 / n1) := by ring
    _ = n1 * (n0 / n1) := by rw [← hsum]
    _ = n0 := by field_simp

/-- C3: after a non-trivial SNII (resp. AGB) channel run with mass
transfer enabled and `norm1 > 0`, the increment of
`metal_mass_released` plus the increments of the H and He entries of
`metals_released[]` (i.e. the scaled total-metal mass plus the scaled
H/He mass) equals `norm0`, the IMF integral of the pure table ejecta
mass over the same mass-bin bracket. -/
theorem channel_normalization
    (im : ℝ → ℝ → ℝ → ℤ → (ℕ → ℝ) → ℝ)
    (db : ℝ → ℝ → ℕ × ℕ) (lmm : ℝ) (props : stars_props)
    (sp : spart) (buf : ℕ → ℝ) (lo hi : ℝ) :
    (¬((SNII_parts im db lmm props sp buf lo hi).loClamped ≥
          (SNII_parts im db lmm props sp buf lo hi).hiClamped) →
      props.SNII_mass_transfer = 1 →
      (SNII_parts im db lmm props sp buf lo hi).norm1 > 0 →
      (evolve_SNII im db lmm props sp buf lo hi).map
          (fun r => (r.1.metal_mass_released - sp.metal_mass_released) +
            ((r.1.metals_released chemistry_element_H -
                sp.metals_released chemistry_element_H) +
              (r.1.metals_released chemistry_element_He -
                sp.metals_released chemistry_element_He))) =
        some (SNII_parts im db lmm props sp buf lo hi).norm0) ∧
    (props.AGB_mass_transfer = 1 →
      ¬((AGB_parts im db lmm props sp buf lo hi).loClamped ≥
          (AGB_parts im db lmm props sp buf lo hi).hiClamped) →
      (AGB_parts im db lmm props sp buf lo hi).norm1 > 0 →
      (evolve_AGB im db lmm props sp buf lo hi).map
          (fun r => (r.1.metal_mass_released - sp.metal_mass_released) +
            ((r.1.metals_released chemistry_element_H -
                sp.metals_released chemistry_element_H) +
              (r.1.metals_released chemistry_element_He -
                sp.metals_released chemistry_element_He))) =
        some (AGB_parts im db lmm props sp buf lo hi).norm0) := by
  constructor
  · intro h1 h2 h3
    obtain ⟨P, hP⟩ : ∃ P, P = SNII_parts im db lmm props sp buf lo hi := ⟨_, rfl⟩
    have hnorm : P.norm1 = P.massC + P.metalsC chemistry_element_H +
        P.metalsC chemistry_element_He := by rw [hP]; rfl
    rw [← hP] at h1 h3 ⊢
    rw [evolve_SNII, ← hP]
    simp only [if_neg h1, if_pos h2, if_pos h3, Option.map_some']
    rw [if_pos (by norm_num [chemistry_element_H, chemistry_element_count]),
      if_pos (by norm_num [chemistry_element_He, chemistry_element_count])]
    have key := norm_scale_sum P.massC (P.metalsC chemistry_element_H)
      (P.metalsC chemistry_element_He) P.norm0 P.norm1 hnorm h3
    rw [Option.some_inj]
    linarith [key]
  · intro h0 h1 h3
    obtain ⟨P, hP⟩ : ∃ P, P = AGB_parts im db lmm props sp buf lo hi := ⟨_, rfl⟩
    have hnorm : P.norm1 = P.massC + P.metalsC chemistry_element_H +
        P.metalsC chemistry_element_He := by rw [hP]; rfl
    rw [← hP] at h1 h3 ⊢
    rw [evolve_AGB, if_neg (by rw [h0]; norm_num : ¬(props.AGB_mass_transfer = 0)),
      ← hP]
    simp only [if_neg h1, if_pos h3, Option.map_some']
    rw [if_pos (by norm_num [chemistry_element_H, chemistry_element_count]),
      if_pos (by norm_num [chemistry_element_He, chemistry_element_count])]
    have key := norm_scale_sum P.massC (P.metalsC chemistry_element_H)
      (P.metalsC chemistry_element_He) P.norm0 P.norm1 hnorm h3
    rw [Option.some_inj]
    linarith [key]

/-- Witness for C3, on a constant-`1` integrator stub (the identity
holds for every integrator), with both transfer toggles on and the
full range `[0, 2]` so both channels run. -/
theorem channel_normalization_witness :
    ((evolve_SNII unitIntegrator zeroBinsFn 0 transferProps sampleSpart
          (fun _ => 0) 0 2).map
        (fun r => (r.1.metal_mass_released - sampleSpart.metal_mass_released) +
          ((r.1.metals_released chemistry_element_H -
              sampleSpart.metals_released chemistry_element_H) +
            (r.1.metals_released chemistry_element_He -
              sampleSpart.metals_released chemistry_element_He))) =
      some (SNII_parts unitIntegrator zeroBinsFn 0 transferProps sampleSpart
          (fun _ => 0) 0 2).norm0) ∧
    ((evolve_AGB unitIntegrator zeroBinsFn 0 transferProps sampleSpart
          (fun _ => 0) 0 2).map
        (fun r => (r.1.metal_mass_released - sampleSpart.metal_mass_released) +
          ((r.1.metals_released chemistry_element_H -
              sampleSpart.metals_released chemistry_element_H) +
            (r.1.metals_released chemistry_element_He -
              sampleSpart.metals_released chemistry_element_He))) =
      some (AGB_parts unitIntegrator zeroBinsFn 0 transferProps sampleSpart
          (fun _ => 0) 0 2).norm0) := by
  have h := channel_normalization unitIntegrator zeroBinsFn 0 transferProps
    sampleSpart (fun _ => 0) 0 2
  constructor
  · exact h.1
      (by norm_num [SNII_parts, log10_SNII_min_mass_msun, log10_SNII_max_mass_msun])
      (by norm_num [transferProps, baseProps])
      (by norm_num [SNII_parts, unitIntegrator, chemistry_element_H,
        chemistry_element_He])
  · exact h.2
      (by norm_num [transferProps, baseProps])
      (by norm_num [AGB_parts, log10_SNII_min_mass_msun])
      (by norm_num [AGB_parts, unitIntegrator, chemistry_element_H,
        chemistry_element_He])

/-! ## C9: the SNII channel's metallicity bracket comes from the AGB axis -/

section CoreBracket

variable (im : ℝ → ℝ → ℝ → ℤ → (ℕ → ℝ) → ℝ)
variable (db : ℝ → ℝ → ℕ × ℕ)

/-- `SNII_parts` with the metallicity bracket supplied from outside
instead of being resolved by `determine_bin_yield`; used to state which
bracket the SNII channel actually indexes its yield table with. -/
noncomputable def SNII_parts_core (zbin : ℕ × ℕ × ℝ) (props : stars_props)
    (sp : spart) (buf : ℕ → ℝ) (log10_min_mass log10_max_mass : ℝ) :
    channelParts :=
  let lo := if log10_min_mass < log10_SNII_min_mass_msun then
    log10_SNII_min_mass_msun else log10_min_mass
  let hi := if log10_max_mass > log10_SNII_max_mass_msun then
    log10_SNII_max_mass_msun else log10_max_mass
  let bins := db lo hi
  let ilow := bins.1
  let ihigh := bins.2
  let iz_low := zbin.1
  let iz_high := zbin.2.1
  let dz := zbin.2.2
  let yieldElem : ℕ → ℕ → ℝ := fun i imass =>
    if ilow ≤ imass ∧ imass ≤ ihigh then
      (1 - dz) * (props.yield_SNII.SPH
            (row_major_index_3d iz_low i imass props.SNII_n_z
              chemistry_element_count props.SNII_n_mass) +
          sp.chemistry_data.metal_mass_fraction i * props.yield_SNII.ejecta_SPH
            (row_major_index_2d iz_low imass props.SNII_n_z props.SNII_n_mass)) +
        dz * (props.yield_SNII.SPH
            (row_major_index_3d iz_high i imass props.SNII_n_z
              chemistry_element_count props.SNII_n_mass) +
          sp.chemistry_data.metal_mass_fraction i * props.yield_SNII.ejecta_SPH
            (row_major_index_2d iz_high imass props.SNII_n_z props.SNII_n_mass))
    else buf imass
  let metals : ℕ → ℝ := fun i => im lo hi 0 2 (yieldElem i)
  let yieldTot : ℕ → ℝ := fun imass =>
    if ilow ≤ imass ∧ imass ≤ ihigh then
      (1 - dz) * (props.yield_SNII.total_metals_SPH
            (row_major_index_2d iz_low imass props.SNII_n_z props.SNII_n_mass) +
          sp.chemistry_data.metal_mass_fraction_total * props.yield_SNII.ejecta_SPH
            (row_major_index_2d iz_low imass props.SNII_n_z props.SNII_n_mass)) +
        dz * (props.yield_SNII.total_metals_SPH
            (row_major_index_2d iz_high imass props.SNII_n_z props.SNII_n_mass) +
          sp.chemistry_data.metal_mass_fraction_total * props.yield_SNII.ejecta_SPH
            (row_major_index_2d iz_high imass props.SNII_n_z props.SNII_n_mass))
    else buf imass
  let mass := im lo hi 0 2 yieldTot
  let metalsC : ℕ → ℝ := fun i => if metals i < 0 then 0 else metals i
  let massC := if mass < 0 then 0 else mass
  let yieldEjecta : ℕ → ℝ := fun imass =>
    if ilow ≤ imass ∧ imass ≤ ihigh then
      (1 - dz) * props.yield_SNII.ejecta_SPH
          (row_major_index_2d iz_low imass props.SNII_n_z props.SNII_n_mass) +
        dz * props.yield_SNII.ejecta_SPH
          (row_major_index_2d iz_high imass props.SNII_n_z props.SNII_n_mass)
    else buf imass
  let norm0 := im lo hi 0 2 yieldEjecta
  let norm1 := massC + metalsC chemistry_element_H + metalsC chemistry_element_He
  ⟨lo, hi, metalsC, massC, norm0, norm1, yieldEjecta⟩

/-- `evolve_SNII` with the metallicity bracket supplied from outside. -/
noncomputable def evolve_SNII_core (zbin : ℕ × ℕ × ℝ) (props : stars_props)
    (sp : spart) (buf : ℕ → ℝ) (log10_min_mass log10_max_mass : ℝ) :
    Option (spart × (ℕ → ℝ)) :=
  let P := SNII_parts_core im db zbin props sp buf log10_min_mass log10_max_mass
  if P.loClamped ≥ P.hiClamped then some (sp, buf)
  else
    let k := P.norm0 / P.norm1
    if props.SNII_mass_transfer = 1 then
      if P.norm1 > 0 then
        some
          ({ sp with
            metals_released := fun i =>
              if i < chemistry_element_count then
                sp.metals_released i + P.metalsC i * k
              else sp.metals_released i
            chemistry_data := { sp.chemistry_data with
              mass_from_SNII := sp.chemistry_data.mass_from_SNII +
                ∑ i ∈ Finset.range chemistry_element_count, P.metalsC i * k
              metal_mass_fraction_from_SNII :=
                sp.chemistry_data.metal_mass_fraction_from_SNII + P.massC * k }
            metal_mass_released := sp.metal_mass_released + P.massC * k },
          P.outBuf)
      else none
    else
      some
        ({ sp with
          chemistry_data := { sp.chemistry_data with
            mass_from_SNII := 0
            metal_mass_fraction_from_SNII := 0 } },
        P.outBuf)

end CoreBracket

/-- C9: the SNII channel's metallicity bracket is resolved against the
AGB yield table's metallicity axis (with `AGB_n_z` rows): the channel's
result does not depend on the SNII table's own metallicity axis at all,
and it equals the bracket-parameterized channel run with exactly
`determine_bin_yield` on the particle's log total metallicity — whose
bracket indices then index the SNII yield table (see
`SNII_parts_core`). -/
theorem evolve_SNII_uses_AGB_axis
    (im : ℝ → ℝ → ℝ → ℤ → (ℕ → ℝ) → ℝ) (db : ℝ → ℝ → ℕ × ℕ) (lmm : ℝ)
    (props : stars_props) (sp : spart) (buf : ℕ → ℝ) (lo hi : ℝ)
    (f : ℕ → ℝ) :
    evolve_SNII im db lmm
        { props with yield_SNII := { props.yield_SNII with metallicity := f } }
        sp buf lo hi =
      evolve_SNII im db lmm props sp buf lo hi ∧
    evolve_SNII im db lmm props sp buf lo hi =
      evolve_SNII_core im db
        (determine_bin_yield lmm props
          (Real.logb 10 sp.chemistry_data.metal_mass_fraction_total))
        props sp buf lo hi := by
  constructor
  · rfl
  · rfl

/-! ## C5: monotonicity of the dying mass in age -/

/-- `baseProps` with the Padovani-Matteucci (analytic) lifetime model. -/
noncomputable def pm93Props : stars_props :=
  { baseProps with stellar_lifetime_flag := 0 }

/-- `baseProps` with the Maeder-Meynet (analytic) lifetime model. -/
noncomputable def mm89Props : stars_props :=
  { baseProps with stellar_lifetime_flag := 1 }

lemma imfClamp_eq_min (m : ℝ) : imfClamp m = min m 100 := by
  simp only [imfClamp, imf_max_mass_msun, min_def]
  split_ifs <;> linarith

lemma imfClamp_mono {a b : ℝ} (h : a ≤ b) : imfClamp a ≤ imfClamp b := by
  rw [imfClamp_eq_min, imfClamp_eq_min]
  exact min_le_min h (le_refl _)

lemma imfClamp_of_le_hundred {m : ℝ} (h : m ≤ 100) : imfClamp m = m := by
  rw [imfClamp_eq_min]
  exact min_eq_left h

lemma exp_le_hundred {x : ℝ} (h : x ≤ 2) : Real.exp (Real.log 10 * x) ≤ 100 := by
  have h100 : Real.exp (Real.log 10 * 2) = 100 := by
    rw [show (2 : ℝ) = ((2 : ℕ) : ℝ) by norm_num, exp_log_ten_nat]
    norm_num
  rw [← h100]
  exact exp_log_ten_le.mpr h

lemma logb_ten_pow10 (n : ℕ) (v : ℝ) (hv : ((10 : ℝ) ^ n) = v) :
    Real.logb 10 v = (n : ℝ) := by
  rw [← hv, ← exp_log_ten_nat, logb_ten_exp_mul]

/-- Antitonicity in the age of one closed-form branch
`exp(ln 10 * (c - log10 a) / k)` with `k > 0`. -/
lemma powBranch_antitone (c k : ℝ) (hk : 0 < k) {a1 a2 : ℝ} (h0 : 0 < a1)
    (h12 : a1 ≤ a2) :
    Real.exp (Real.log 10 * (c - Real.logb 10 a2) / k) ≤
      Real.exp (Real.log 10 * (c - Real.logb 10 a1) / k) := by
  apply Real.exp_le_exp.mpr
  have hlog : Real.logb 10 a1 ≤ Real.logb 10 a2 :=
    Real.logb_le_logb_of_le (by norm_num) h0 h12
  have h2 : Real.log 10 * (c - Real.logb 10 a2) ≤
      Real.log 10 * (c - Real.logb 10 a1) :=
    mul_le_mul_of_nonneg_left (by linarith) (le_of_lt log_ten_pos)
  exact (div_le_div_iff_of_pos_right hk).mpr h2

/-- Antitonicity of PM93's oldest-age branch, valid while the quadratic
factor `1.338 - 0.1116*(9 + log10 a)` stays nonnegative, i.e. for
`log10 a <= 278/93` (about 976 Gyr). -/
lemma pm93_branch1_antitone {a1 a2 : ℝ} (h0 : 0 < a1) (h12 : a1 ≤ a2)
    (hcap : Real.logb 10 a2 ≤ 278 / 93) :
    Real.exp (Real.log 10 * (7.764 - (1.79 -
        (1.338 - 0.1116 * (9 + Real.logb 10 a2)) *
          (1.338 - 0.1116 * (9 + Real.logb 10 a2))) / 0.2232)) ≤
      Real.exp (Real.log 10 * (7.764 - (1.79 -
        (1.338 - 0.1116 * (9 + Real.logb 10 a1)) *
          (1.338 - 0.1116 * (9 + Real.logb 10 a1))) / 0.2232)) := by
  apply Real.exp_le_exp.mpr
  have hlog : Real.logb 10 a1 ≤ Real.logb 10 a2 :=
    Real.logb_le_logb_of_le (by norm_num) h0 h12
  apply mul_le_mul_of_nonneg_left _ (le_of_lt log_ten_pos)
  have hu2 : 0 ≤ 1.338 - 0.1116 * (9 + Real.logb 10 a2) := by linarith
  have hu12 : 1.338 - 0.1116 * (9 + Real.logb 10 a2) ≤
      1.338 - 0.1116 * (9 + Real.logb 10 a1) := by linarith
  have hsq : (1.338 - 0.1116 * (9 + Real.logb 10 a2)) *
        (1.338 - 0.1116 * (9 + Real.logb 10 a2)) ≤
      (1.338 - 0.1116 * (9 + Real.logb 10 a1)) *
        (1.338 - 0.1116 * (9 + Real.logb 10 a1)) :=
    mul_le_mul hu12 hu12 hu2 (by linarith)
  apply sub_le_sub_left
  apply (div_le_div_iff_of_pos_right (by norm_num : (0:ℝ) < 0.2232)).mpr
  linarith

/-- Antitonicity in the age of the low-age power-law branch
`((a - 0.003)/1.2) ^ e` for a nonpositive exponent. -/
lemma rpowBranch_antitone (e : ℝ) (he : e ≤ 0) {a1 a2 : ℝ}
    (h0 : 0.003 < a1) (h12 : a1 ≤ a2) :
    ((a2 - 0.003) / 1.2 : ℝ) ^ e ≤ ((a1 - 0.003) / 1.2 : ℝ) ^ e := by
  apply Real.rpow_le_rpow_of_nonpos (div_pos (by linarith) (by norm_num))
    ((div_le_div_iff_of_pos_right (by norm_num : (0:ℝ) < 1.2)).mpr (by linarith)) he

lemma dying_flag0_unfold (props : stars_props)
    (hf : props.stellar_lifetime_flag = 0) (age Z : ℝ) :
    dying_mass_msun age Z props = some (imfClamp
      (if age > 0.039765318659064693 then
        Real.exp (Real.log 10 *
          (7.764 - (1.79 -
              (1.338 - 0.1116 * (9 + Real.logb 10 age)) *
                (1.338 - 0.1116 * (9 + Real.logb 10 age))) /
            0.2232))
      else if age > 0.003 then
        ((age - 0.003) / 1.2) ^ (-1 / 1.85 : ℝ)
      else imf_max_mass_msun)) := by
  rw [dying_mass_msun, if_pos hf]

lemma dying_flag1_unfold (props : stars_props)
    (hf : props.stellar_lifetime_flag = 1) (age Z : ℝ) :
    dying_mass_msun age Z props = some (imfClamp
      (if age ≥ 8.4097378 then
        Real.exp (Real.log 10 * (1 - Real.logb 10 age) / 0.6545)
      else if age ≥ 0.35207776 then
        Real.exp (Real.log 10 * (1.35 - Real.logb 10 age) / 3.7)
      else if age ≥ 0.050931493 then
        Real.exp (Real.log 10 * (0.77 - Real.logb 10 age) / 2.51)
      else if age ≥ 0.010529099 then
        Real.exp (Real.log 10 * (0.17 - Real.logb 10 age) / 1.78)
      else if age ≥ 0.0037734787 then
        Real.exp (Real.log 10 * (-0.94 - Real.logb 10 age) / 0.86)
      else if age > 0.003 then
        ((age - 0.003) / 1.2) ^ (-0.54054053 : ℝ)
      else imf_max_mass_msun)) := by
  rw [dying_mass_msun, if_neg (by rw [hf]; norm_num), if_pos hf]

/-- Counterexample to C5 as stated: under the PM93 model the dying mass
at age `100000` Gyr is strictly larger than at age `1000` Gyr (the
top branch's quadratic turns around near `10^(278/93) ~ 976` Gyr), so
`dying_mass_msun` is not non-increasing in age. -/
theorem dying_mass_age_monotone_cex :
    (1000 : ℝ) ≤ 100000 ∧
      dying_mass_msun 1000 0.02 pm93Props = some (Real.exp (Real.log 10 *
        (7.764 - (1.79 -
            (1.338 - 0.1116 * (9 + Real.logb 10 1000)) *
              (1.338 - 0.1116 * (9 + Real.logb 10 1000))) /
          0.2232))) ∧
      dying_mass_msun 100000 0.02 pm93Props = some (Real.exp (Real.log 10 *
        (7.764 - (1.79 -
            (1.338 - 0.1116 * (9 + Real.logb 10 100000)) *
              (1.338 - 0.1116 * (9 + Real.logb 10 100000))) /
          0.2232))) ∧
      Real.exp (Real.log 10 *
          (7.764 - (1.79 -
              (1.338 - 0.1116 * (9 + Real.logb 10 1000)) *
                (1.338 - 0.1116 * (9 + Real.logb 10 1000))) /
            0.2232)) <
        Real.exp (Real.log 10 *
          (7.764 - (1.79 -
              (1.338 - 0.1116 * (9 + Real.logb 10 100000)) *
                (1.338 - 0.1116 * (9 + Real.logb 10 100000))) /
            0.2232)) := by
  have hl3 : Real.logb 10 (1000 : ℝ) = ((3 : ℕ) : ℝ) :=
    logb_ten_pow10 3 1000 (by norm_num)
  have hl5 : Real.logb 10 (100000 : ℝ) = ((5 : ℕ) : ℝ) :=
    logb_ten_pow10 5 100000 (by norm_num)
  refine ⟨by norm_num, ?_, ?_, ?_⟩
  · rw [dying_flag0_unfold pm93Props (by norm_num [pm93Props, baseProps]) 1000 0.02,
      if_pos (by norm_num : (1000 : ℝ) > 0.039765318659064693),
      imfClamp_of_le_hundred (exp_le_hundred (by rw [hl3]; norm_num))]
  · rw [dying_flag0_unfold pm93Props (by norm_num [pm93Props, baseProps]) 100000 0.02,
      if_pos (by norm_num : (100000 : ℝ) > 0.039765318659064693),
      imfClamp_of_le_hundred (exp_le_hundred (by rw [hl5]; norm_num))]
  · rw [exp_log_ten_lt, hl3, hl5]
    norm_num

/-- C5 (amended): for fixed metallicity, `dying_mass_msun` is
non-increasing in age within each piecewise branch of the two analytic
models — with PM93's oldest-age branch restricted to ages with
`log10(age) <= 278/93` (about 976 Gyr), beyond which that branch
increases (see the counterexample); monotonicity across branch
boundaries, at larger PM93 ages, and for the tabulated model is not
asserted. -/
theorem dying_mass_branchwise_antitone (props : stars_props) (Z : ℝ)
    (a1 a2 : ℝ) (h12 : a1 ≤ a2) :
    (props.stellar_lifetime_flag = 0 →
      ((0.039765318659064693 < a1 ∧ Real.logb 10 a2 ≤ 278 / 93 →
        ∀ m1 m2, dying_mass_msun a1 Z props = some m1 →
          dying_mass_msun a2 Z props = some m2 → m2 ≤ m1) ∧
      (0.003 < a1 ∧ a2 ≤ 0.039765318659064693 →
        ∀ m1 m2, dying_mass_msun a1 Z props = some m1 →
          dying_mass_msun a2 Z props = some m2 → m2 ≤ m1) ∧
      (a2 ≤ 0.003 →
        ∀ m1 m2, dying_mass_msun a1 Z props = some m1 →
          dying_mass_msun a2 Z props = some m2 → m2 ≤ m1))) ∧
    (props.stellar_lifetime_flag = 1 →
      ((8.4097378 ≤ a1 →
        ∀ m1 m2, dying_mass_msun a1 Z props = some m1 →
          dying_mass_msun a2 Z props = some m2 → m2 ≤ m1) ∧
      (0.35207776 ≤ a1 ∧ a2 < 8.4097378 →
        ∀ m1 m2, dying_mass_msun a1 Z props = some m1 →
          dying_mass_msun a2 Z props = some m2 → m2 ≤ m1) ∧
      (0.050931493 ≤ a1 ∧ a2 < 0.35207776 →
        ∀ m1 m2, dying_mass_msun a1 Z props = some m1 →
          dying_mass_msun a2 Z props = some m2 → m2 ≤ m1) ∧
      (0.010529099 ≤ a1 ∧ a2 < 0.050931493 →
        ∀ m1 m2, dying_mass_msun a1 Z props = some m1 →
          dying_mass_msun a2 Z props = some m2 → m2 ≤ m1) ∧
      (0.0037734787 ≤ a1 ∧ a2 < 0.010529099 →
        ∀ m1 m2, dying_mass_msun a1 Z props = some m1 →
          dying_mass_msun a2 Z props = some m2 → m2 ≤ m1) ∧
      (0.003 < a1 ∧ a2 < 0.0037734787 →
        ∀ m1 m2, dying_mass_msun a1 Z props = some m1 →
          dying_mass_msun a2 Z props = some m2 → m2 ≤ m1) ∧
      (a2 ≤ 0.003 →
        ∀ m1 m2, dying_mass_msun a1 Z props = some m1 →
          dying_mass_msun a2 Z props = some m2 → m2 ≤ m1))) := by
  constructor
  · intro hflag
    refine ⟨?_, ?_, ?_⟩
    · rintro ⟨hA, hcap⟩ m1 m2 hm1 hm2
      rw [dying_flag0_unfold props hflag a1 Z, Option.some_inj] at hm1
      rw [dying_flag0_unfold props hflag a2 Z, Option.some_inj] at hm2
      subst hm1; subst hm2
      rw [if_pos hA, if_pos (lt_of_lt_of_le hA h12)]
      exact imfClamp_mono
        (pm93_branch1_antitone (lt_trans (by norm_num) hA) h12 hcap)
    · rintro ⟨hA, hB⟩ m1 m2 hm1 hm2
      rw [dying_flag0_unfold props hflag a1 Z, Option.some_inj] at hm1
      rw [dying_flag0_unfold props hflag a2 Z, Option.some_inj] at hm2
      subst hm1; subst hm2
      rw [if_neg (not_lt.mpr (le_trans h12 hB)), if_neg (not_lt.mpr hB),
        if_pos hA, if_pos (lt_of_lt_of_le hA h12)]
      exact imfClamp_mono (rpowBranch_antitone (-1 / 1.85) (by norm_num) hA h12)
    · intro hB m1 m2 hm1 hm2
      rw [dying_flag0_unfold props hflag a1 Z, Option.some_inj] at hm1
      rw [dying_flag0_unfold props hflag a2 Z, Option.some_inj] at hm2
      subst hm1; subst hm2
      rw [if_neg (not_lt.mpr (le_trans (le_trans h12 hB) (by norm_num))),
        if_neg (not_lt.mpr (le_trans hB (by norm_num))),
        if_neg (not_lt.mpr (le_trans h12 hB)), if_neg (not_lt.mpr hB)]
  · intro hflag
    refine ⟨?_, ?_, ?_, ?_, ?_, ?_, ?_⟩
    · intro hA m1 m2 hm1 hm2
      rw [dying_flag1_unfold props hflag a1 Z, Option.some_inj] at hm1
      rw [dying_flag1_unfold props hflag a2 Z, Option.some_inj] at hm2
      subst hm1; subst hm2
      rw [if_pos hA, if_pos (le_trans hA h12)]
      exact imfClamp_mono (powBranch_antitone 1 0.6545 (by norm_num)
        (lt_of_lt_of_le (by norm_num) hA) h12)
    · rintro ⟨hA, hB⟩ m1 m2 hm1 hm2
      rw [dying_flag1_unfold props hflag a1 Z, Option.some_inj] at hm1
      rw [dying_flag1_unfold props hflag a2 Z, Option.some_inj] at hm2
      subst hm1; subst hm2
      rw [if_neg (not_le.mpr (lt_of_le_of_lt h12 hB)), if_neg (not_le.mpr hB),
        if_pos hA, if_pos (le_trans hA h12)]
      exact imfClamp_mono (powBranch_antitone 1.35 3.7 (by norm_num)
        (lt_of_lt_of_le (by norm_num) hA) h12)
    · rintro ⟨hA, hB⟩ m1 m2 hm1 hm2
      rw [dying_flag1_unfold props hflag a1 Z, Option.some_inj] at hm1
      rw [dying_flag1_unfold props hflag a2 Z, Option.some_inj] at hm2
      subst hm1; subst hm2
      rw [if_neg (not_le.mpr (lt_of_le_of_lt h12 (lt_trans hB (by norm_num)))),
        if_neg (not_le.mpr (lt_trans hB (by norm_num))),
        if_neg (not_le.mpr (lt_of_le_of_lt h12 hB)), if_neg (not_le.mpr hB),
        if_pos hA, if_pos (le_trans hA h12)]
      exact imfClamp_mono (powBranch_antitone 0.77 2.51 (by norm_num)
        (lt_of_lt_of_le (by norm_num) hA) h12)
    · rintro ⟨hA, hB⟩ m1 m2 hm1 hm2
      rw [dying_flag1_unfold props hflag a1 Z, Option.some_inj] at hm1
      rw [dying_flag1_unfold props hflag a2 Z, Option.some_inj] at hm2
      subst hm1; subst hm2
      rw [if_neg (not_le.mpr (lt_of_le_of_lt h12 (lt_trans hB (by norm_num)))),
        if_neg (not_le.mpr (lt_trans hB (by norm_num))),
        if_neg (not_le.mpr (lt_of_le_of_lt h12 (lt_trans hB (by norm_num)))),
        if_neg (not_le.mpr (lt_trans hB (by norm_num))),
        if_neg (not_le.mpr (lt_of_le_of_lt h12 hB)), if_neg (not_le.mpr hB),
        if_pos hA, if_pos (le_trans hA h12)]
      exact imfClamp_mono (powBranch_antitone 0.17 1.78 (by norm_num)
        (lt_of_lt_of_le (by norm_num) hA) h12)
    · rintro ⟨hA, hB⟩ m1 m2 hm1 hm2
      rw [dying_flag1_unfold props hflag a1 Z, Option.some_inj] at hm1
      rw [dying_flag1_unfold props hflag a2 Z, Option.some_inj] at hm2
      subst hm1; subst hm2
      rw [if_neg (not_le.mpr (lt_of_le_of_lt h12 (lt_trans hB (by norm_num)))),
        if_neg (not_le.mpr (lt_trans hB (by norm_num))),
        if_neg (not_le.mpr (lt_of_le_of_lt h12 (lt_trans hB (by norm_num)))),
        if_neg (not_le.mpr (lt_trans hB (by norm_num))),
        if_neg (not_le.mpr (lt_of_le_of_lt h12 (lt_trans hB (by norm_num)))),
        if_neg (not_le.mpr (lt_trans hB (by norm_num))),
        if_neg (not_le.mpr (lt_of_le_of_lt h12 hB)), if_neg (not_le.mpr hB),
        if_pos hA, if_pos (le_trans hA h12)]
      exact imfClamp_mono (powBranch_antitone (-0.94) 0.86 (by norm_num)
        (lt_of_lt_of_le (by norm_num) hA) h12)
    · rintro ⟨hA, hB⟩ m1 m2 hm1 hm2
      rw [dying_flag1_unfold props hflag a1 Z, Option.some_inj] at hm1
      rw [dying_flag1_unfold props hflag a2 Z, Option.some_inj] at hm2
      subst hm1; subst hm2
      rw [if_neg (not_le.mpr (lt_of_le_of_lt h12 (lt_trans hB (by norm_num)))),
        if_neg (not_le.mpr (lt_trans hB (by norm_num))),
        if_neg (not_le.mpr (lt_of_le_of_lt h12 (lt_trans hB (by norm_num)))),
        if_neg (not_le.mpr (lt_trans hB (by norm_num))),
        if_neg (not_le.mpr (lt_of_le_of_lt h12 (lt_trans hB (by norm_num)))),
        if_neg (not_le.mpr (lt_trans hB (by norm_num))),
        if_neg (not_le.mpr (lt_of_le_of_lt h12 (lt_trans hB (by norm_num)))),
        if_neg (not_le.mpr (lt_trans hB (by norm_num))),
        if_neg (not_le.mpr (lt_of_le_of_lt h12 hB)), if_neg (not_le.mpr hB),
        if_pos hA, if_pos (lt_of_lt_of_le hA h12)]
      exact imfClamp_mono (rpowBranch_antitone (-0.54054053) (by norm_num) hA h12)
    · intro hB m1 m2 hm1 hm2
      rw [dying_flag1_unfold props hflag a1 Z, Option.some_inj] at hm1
      rw [dying_flag1_unfold props hflag a2 Z, Option.some_inj] at hm2
      subst hm1; subst hm2
      rw [if_neg (not_le.mpr (lt_of_le_of_lt h12 (lt_of_le_of_lt hB (by norm_num)))),
        if_neg (not_le.mpr (lt_of_le_of_lt hB (by norm_num))),
        if_neg (not_le.mpr (lt_of_le_of_lt h12 (lt_of_le_of_lt hB (by norm_num)))),
        if_neg (not_le.mpr (lt_of_le_of_lt hB (by norm_num))),
        if_neg (not_le.mpr (lt_of_le_of_lt h12 (lt_of_le_of_lt hB (by norm_num)))),
        if_neg (not_le.mpr (lt_of_le_of_lt hB (by norm_num))),
        if_neg (not_le.mpr (lt_of_le_of_lt h12 (lt_of_le_of_lt hB (by norm_num)))),
        if_neg (not_le.mpr (lt_of_le_of_lt hB (by norm_num))),
        if_neg (not_le.mpr (lt_of_le_of_lt h12 (lt_of_le_of_lt hB (by norm_num)))),
        if_neg (not_le.mpr (lt_of_le_of_lt hB (by norm_num))),
        if_neg (not_lt.mpr (le_trans h12 hB)), if_neg (not_lt.mpr hB)]

/-- Witness for the amended C5: MM89 model, ages `1` and `2` inside the
second branch. -/
theorem dying_mass_branchwise_antitone_witness :
    (1 : ℝ) ≤ 2 ∧
      dying_mass_msun 1 0 mm89Props = some (imfClamp
        (Real.exp (Real.log 10 * (1.35 - Real.logb 10 1) / 3.7))) ∧
      dying_mass_msun 2 0 mm89Props = some (imfClamp
        (Real.exp (Real.log 10 * (1.35 - Real.logb 10 2) / 3.7))) ∧
      imfClamp (Real.exp (Real.log 10 * (1.35 - Real.logb 10 2) / 3.7)) ≤
        imfClamp (Real.exp (Real.log 10 * (1.35 - Real.logb 10 1) / 3.7)) := by
  have hf : mm89Props.stellar_lifetime_flag = 1 := by norm_num [mm89Props, baseProps]
  have he1 : dying_mass_msun 1 0 mm89Props = some (imfClamp
      (Real.exp (Real.log 10 * (1.35 - Real.logb 10 1) / 3.7))) := by
    rw [dying_flag1_unfold mm89Props hf 1 0,
      if_neg (by norm_num : ¬((1 : ℝ) ≥ 8.4097378)),
      if_pos (by norm_num : (1 : ℝ) ≥ 0.35207776)]
  have he2 : dying_mass_msun 2 0 mm89Props = some (imfClamp
      (Real.exp (Real.log 10 * (1.35 - Real.logb 10 2) / 3.7))) := by
    rw [dying_flag1_unfold mm89Props hf 2 0,
      if_neg (by norm_num : ¬((2 : ℝ) ≥ 8.4097378)),
      if_pos (by norm_num : (2 : ℝ) ≥ 0.35207776)]
  refine ⟨by norm_num, he1, he2, ?_⟩
  have h := (dying_mass_branchwise_antitone mm89Props 0 1 2 (by norm_num)).2 hf
  exact h.2.1 ⟨by norm_num, by norm_num⟩ _ _ he1 he2

/-! ## Frame lemmas for the channels and the driver -/

lemma evolve_SNIa_frame (lo hi : ℝ) (props : stars_props) (sp : spart)
    (dtG : ℝ) :
    ∀ s1, evolve_SNIa lo hi props sp dtG = some s1 →
      s1.age = sp.age ∧
      s1.chemistry_data.metal_mass_fraction_total =
        sp.chemistry_data.metal_mass_fraction_total := by
  intro s1 hs1
  rw [evolve_SNIa] at hs1
  split_ifs at hs1 with h1 h2
  · rw [Option.some_inj] at hs1
    rw [← hs1]
    exact ⟨rfl, rfl⟩
  · rcases Option.bind_eq_some.mp hs1 with ⟨L, -, hL2⟩
    rw [Option.some_inj] at hL2
    rw [← hL2, SNIa_transfer]
    split_ifs <;> exact ⟨rfl, rfl⟩
  · rw [Option.some_inj] at hs1
    rw [← hs1, SNIa_transfer]
    split_ifs <;> exact ⟨rfl, rfl⟩

/-- The SNIa channel's effect on the enrichment clock: set to the
lifetime at the cap mass exactly when the channel runs and the maximum
dying mass exceeds the cap, unchanged otherwise. -/
lemma evolve_SNIa_clock (lo hi : ℝ) (props : stars_props) (sp : spart)
    (dtG L : ℝ)
    (hL : lifetime_in_Gyr (Real.exp (Real.log 10 * log10_SNIa_max_mass_msun))
      sp.chemistry_data.metal_mass_fraction_total props = some L) :
    ∀ s1, evolve_SNIa lo hi props sp dtG = some s1 →
      ((¬(lo ≥ log10_SNIa_max_mass_msun) ∧ hi > log10_SNIa_max_mass_msun) →
        s1.time_since_enrich_Gyr = L) ∧
      (¬(¬(lo ≥ log10_SNIa_max_mass_msun) ∧ hi > log10_SNIa_max_mass_msun) →
        s1.time_since_enrich_Gyr = sp.time_since_enrich_Gyr) := by
  intro s1 hs1
  rw [evolve_SNIa] at hs1
  split_ifs at hs1 with h1 h2
  · rw [Option.some_inj] at hs1
    rw [← hs1]
    exact ⟨fun habs => absurd h1 habs.1, fun _ => rfl⟩
  · rw [hL, Option.some_bind, Option.some_inj] at hs1
    rw [← hs1, SNIa_transfer]
    constructor
    · intro
      split_ifs <;> rfl
    · intro habs
      exact absurd ⟨h1, h2⟩ habs
  · rw [Option.some_inj] at hs1
    rw [← hs1, SNIa_transfer]
    constructor
    · rintro ⟨-, habs⟩
      exact absurd habs h2
    · intro
      split_ifs <;> rfl

lemma evolve_SNII_frame (im : ℝ → ℝ → ℝ → ℤ → (ℕ → ℝ) → ℝ)
    (db : ℝ → ℝ → ℕ × ℕ) (lmm : ℝ) (props : stars_props) (sp : spart)
    (buf : ℕ → ℝ) (lo hi : ℝ) :
    ∀ r, evolve_SNII im db lmm props sp buf lo hi = some r →
      r.1.time_since_enrich_Gyr = sp.time_since_enrich_Gyr ∧
      r.1.age = sp.age ∧ r.1.num_snia = sp.num_snia ∧
      r.1.chemistry_data.metal_mass_fraction_total =
        sp.chemistry_data.metal_mass_fraction_total := by
  intro r hr
  rw [evolve_SNII] at hr
  split_ifs at hr <;>
    first
      | (rw [Option.some_inj] at hr
         rw [← hr]
         exact ⟨rfl, rfl, rfl, rfl⟩)
      | exact absurd hr (by simp)

lemma evolve_AGB_frame (im : ℝ → ℝ → ℝ → ℤ → (ℕ → ℝ) → ℝ)
    (db : ℝ → ℝ → ℕ × ℕ) (lmm : ℝ) (props : stars_props) (sp : spart)
    (buf : ℕ → ℝ) (lo hi : ℝ) :
    ∀ r, evolve_AGB im db lmm props sp buf lo hi = some r →
      r.1.time_since_enrich_Gyr = sp.time_since_enrich_Gyr ∧
      r.1.age = sp.age ∧ r.1.num_snia = sp.num_snia ∧
      r.1.chemistry_data.metal_mass_fraction_total =
        sp.chemistry_data.metal_mass_fraction_total := by
  intro r hr
  rw [evolve_AGB] at hr
  by_cases h0 : props.AGB_mass_transfer = 0
  · rw [if_pos h0, Option.some_inj] at hr
    rw [← hr]
    exact ⟨rfl, rfl, rfl, rfl⟩
  · rw [if_neg h0] at hr
    simp only [] at hr
    split_ifs at hr <;>
      first
        | (rw [Option.some_inj] at hr
           rw [← hr]
           exact ⟨rfl, rfl, rfl, rfl⟩)
        | exact absurd hr (by simp)

/-- The driver's effect on the enrichment clock, for a general particle
state `p`: set to the lifetime at the cap mass exactly on the path
where the step is non-degenerate, the minimum dying mass is below the
cap and the maximum above it; unchanged on every other successful
path. -/
lemma compute_stellar_evolution_clock
    (im : ℝ → ℝ → ℝ → ℤ → (ℕ → ℝ) → ℝ) (db : ℝ → ℝ → ℕ × ℕ) (lmm : ℝ)
    (props : stars_props) (p : spart) (buf : ℕ → ℝ) (dt m1 m2 L : ℝ)
    (hd1 : dying_mass_msun (p.age * 1.0)
      p.chemistry_data.metal_mass_fraction_total props = some m1)
    (hd2 : dying_mass_msun (p.age * 1.0 + dt * 1.0)
      p.chemistry_data.metal_mass_fraction_total props = some m2)
    (hL : lifetime_in_Gyr (Real.exp (Real.log 10 * log10_SNIa_max_mass_msun))
      p.chemistry_data.metal_mass_fraction_total props = some L) :
    ∀ r, compute_stellar_evolution im db lmm props p buf dt = some r →
      ((Real.logb 10 m2 ≠ Real.logb 10 m1 ∧
          ¬(Real.logb 10 m2 ≥ log10_SNIa_max_mass_msun) ∧
          Real.logb 10 m1 > log10_SNIa_max_mass_msun) →
        r.1.time_since_enrich_Gyr = L) ∧
      (¬(Real.logb 10 m2 ≠ Real.logb 10 m1 ∧
          ¬(Real.logb 10 m2 ≥ log10_SNIa_max_mass_msun) ∧
          Real.logb 10 m1 > log10_SNIa_max_mass_msun) →
        r.1.time_since_enrich_Gyr = p.time_since_enrich_Gyr) := by
  intro r hr
  rw [compute_stellar_evolution] at hr
  simp only [hd1, hd2, Option.some_bind] at hr
  by_cases hgt : Real.logb 10 m2 > Real.logb 10 m1
  · rw [if_pos hgt] at hr
    exact absurd hr (by simp)
  rw [if_neg hgt] at hr
  by_cases heq : Real.logb 10 m2 = Real.logb 10 m1
  · rw [if_pos heq] at hr
    rw [Option.some_inj] at hr
    rw [← hr]
    exact ⟨fun habs => absurd heq habs.1, fun _ => rfl⟩
  rw [if_neg heq] at hr
  rcases Option.bind_eq_some.mp hr with ⟨s1, hs1, hr2⟩
  rcases Option.bind_eq_some.mp hr2 with ⟨r2, hr2a, hr3⟩
  have hfr2 := evolve_SNII_frame im db lmm props s1 buf _ _ r2 hr2a
  have hfr3 := evolve_AGB_frame im db lmm props r2.1 r2.2 _ _ r hr3
  have hclock := evolve_SNIa_clock _ _ props p _ L hL s1 hs1
  constructor
  · rintro ⟨-, hA, hB⟩
    rw [hfr3.1, hfr2.1, hclock.1 ⟨hA, hB⟩]
  · intro hn
    rw [hfr3.1, hfr2.1, hclock.2 ?_]
    intro ⟨hA, hB⟩
    exact hn ⟨heq, hA, hB⟩

/-- C10: across every successful run of `stars_evolve_spart`, the field
`time_since_enrich_Gyr` is set to the lifetime at the cap mass (for the
particle's metallicity) exactly on the path where the step has nonzero
width, the minimum dying mass is below the SNIa cap and the maximum
above it; on every other path it is unchanged — in particular it is
never advanced by `dt`. -/
theorem stars_evolve_time_since_enrich
    (im : ℝ → ℝ → ℝ → ℤ → (ℕ → ℝ) → ℝ) (db : ℝ → ℝ → ℕ × ℕ) (lmm : ℝ)
    (props : stars_props) (sp : spart) (buf : ℕ → ℝ) (dt m1 m2 L : ℝ)
    (hd1 : dying_mass_msun (sp.age * 1.0)
      sp.chemistry_data.metal_mass_fraction_total props = some m1)
    (hd2 : dying_mass_msun (sp.age * 1.0 + dt * 1.0)
      sp.chemistry_data.metal_mass_fraction_total props = some m2)
    (hL : lifetime_in_Gyr (Real.exp (Real.log 10 * log10_SNIa_max_mass_msun))
      sp.chemistry_data.metal_mass_fraction_total props = some L) :
    ∀ r, stars_evolve_spart im db lmm props sp buf dt = some r →
      ((Real.logb 10 m2 ≠ Real.logb 10 m1 ∧
          ¬(Real.logb 10 m2 ≥ log10_SNIa_max_mass_msun) ∧
          Real.logb 10 m1 > log10_SNIa_max_mass_msun) →
        r.1.time_since_enrich_Gyr = L) ∧
      (¬(Real.logb 10 m2 ≠ Real.logb 10 m1 ∧
          ¬(Real.logb 10 m2 ≥ log10_SNIa_max_mass_msun) ∧
          Real.logb 10 m1 > log10_SNIa_max_mass_msun) →
        r.1.time_since_enrich_Gyr = sp.time_since_enrich_Gyr) := by
  intro r hr
  rw [stars_evolve_spart] at hr
  refine compute_stellar_evolution_clock im db lmm props
    { sp with
      num_snia := 0
      metals_released := fun i =>
        if i < chemistry_element_count then 0 else sp.metals_released i
      metal_mass_released := 0
      chemistry_data := { sp.chemistry_data with
        mass_from_AGB := 0
        metal_mass_fraction_from_AGB := 0
        mass_from_SNII := 0
        metal_mass_fraction_from_SNII := 0
        mass_from_SNIa := 0
        metal_mass_fraction_from_SNIa := 0
        iron_mass_fraction_from_SNIa := 0 } }
    buf dt m1 m2 L ?_ ?_ ?_ r hr
  · exact hd1
  · exact hd2
  · exact hL

/-- Evaluation of the tabulated dying mass on `baseProps` for a star
younger than `1` Gyr: the all-`9` dying-time rows put the time bracket
at the high-mass end, so the dying mass is the top of the `[1, 10]`
mass axis. -/
lemma dying_baseProps_young (age : ℝ) (hpos : ¬(age ≤ 0))
    (hlt : Real.logb 10 (age * 1.0e9) < 9) :
    dying_mass_msun age 0 baseProps = some 10 := by
  have hge : ¬(Real.logb 10 (age * 1.0e9) ≥ 9) := not_le.mpr hlt
  have hle9 : Real.logb 10 (age * 1.0e9) ≤ 9 := le_of_lt hlt
  rw [dying_mass_msun,
    if_neg (by norm_num [baseProps] : ¬(baseProps.stellar_lifetime_flag = 0)),
    if_neg (by norm_num [baseProps] : ¬(baseProps.stellar_lifetime_flag = 1)),
    if_pos (by norm_num [baseProps] : baseProps.stellar_lifetime_flag = 2),
    Option.some_inj, if_neg hpos]
  simp only [baseProps, flatLifetimes]
  rw [tableBracket_low _ _ _ (le_refl 0)]
  simp only [timePreCheck]
  rw [if_neg hge, if_pos hle9]
  norm_num [dyingTimeScan, interpol_1d, imfClamp, imf_max_mass_msun]

/-- Evaluation of the tabulated dying mass on `baseProps` for a star at
least `1` Gyr old: the time bracket clamps at the first entry, so the
dying mass is the bottom of the `[1, 10]` mass axis. -/
lemma dying_baseProps_old (age : ℝ) (hpos : ¬(age ≤ 0))
    (hge : Real.logb 10 (age * 1.0e9) ≥ 9) :
    dying_mass_msun age 0 baseProps = some 1 := by
  rw [dying_mass_msun,
    if_neg (by norm_num [baseProps] : ¬(baseProps.stellar_lifetime_flag = 0)),
    if_neg (by norm_num [baseProps] : ¬(baseProps.stellar_lifetime_flag = 1)),
    if_pos (by norm_num [baseProps] : baseProps.stellar_lifetime_flag = 2),
    Option.some_inj, if_neg hpos]
  simp only [baseProps, flatLifetimes]
  rw [tableBracket_low _ _ _ (le_refl 0)]
  simp only [timePreCheck]
  rw [if_pos hge]
  norm_num [dyingTimeScan, interpol_1d, imfClamp, imf_max_mass_msun]

/-- The particle used by the C10 witness: age `0.5` Gyr, nonzero
enrichment clock, zero metallicity. -/
noncomputable def spC10 : spart :=
  { sampleSpart with age := 0.5, time_since_enrich_Gyr := 0.25 }


/-! ## C8: zero-width step leaves every accumulator at its reset value -/

/-- C8: when the computed log dying masses coincide, the evolution call
returns with every per-step accumulator still at the zero it was reset
to (and the scratch buffer untouched). -/
theorem zero_width_step_noop
    (im : ℝ → ℝ → ℝ → ℤ → (ℕ → ℝ) → ℝ) (db : ℝ → ℝ → ℕ × ℕ) (lmm : ℝ)
    (props : stars_props) (sp : spart) (buf : ℕ → ℝ) (dt m1 m2 : ℝ)
    (hd1 : dying_mass_msun (sp.age * 1.0)
      sp.chemistry_data.metal_mass_fraction_total props = some m1)
    (hd2 : dying_mass_msun (sp.age * 1.0 + dt * 1.0)
      sp.chemistry_data.metal_mass_fraction_total props = some m2)
    (heq : Real.logb 10 m2 = Real.logb 10 m1) :
    ∃ sp1, stars_evolve_spart im db lmm props sp buf dt = some (sp1, buf) ∧
      (∀ i, i < chemistry_element_count → sp1.metals_released i = 0) ∧
      sp1.metal_mass_released = 0 ∧
      sp1.chemistry_data.mass_from_AGB = 0 ∧
      sp1.chemistry_data.metal_mass_fraction_from_AGB = 0 ∧
      sp1.chemistry_data.mass_from_SNII = 0 ∧
      sp1.chemistry_data.metal_mass_fraction_from_SNII = 0 ∧
      sp1.chemistry_data.mass_from_SNIa = 0 ∧
      sp1.chemistry_data.metal_mass_fraction_from_SNIa = 0 ∧
      sp1.chemistry_data.iron_mass_fraction_from_SNIa = 0 ∧
      sp1.num_snia = 0 ∧
      sp1.time_since_enrich_Gyr = sp.time_since_enrich_Gyr := by
  refine ⟨{ sp with
    num_snia := 0
    metals_released := fun i =>
      if i < chemistry_element_count then 0 else sp.metals_released i
    metal_mass_released := 0
    chemistry_data := { sp.chemistry_data with
      mass_from_AGB := 0
      metal_mass_fraction_from_AGB := 0
      mass_from_SNII := 0
      metal_mass_fraction_from_SNII := 0
      mass_from_SNIa := 0
      metal_mass_fraction_from_SNIa := 0
      iron_mass_fraction_from_SNIa := 0 } }, ?_, ?_,
    rfl, rfl, rfl, rfl, rfl, rfl, rfl, rfl, rfl, rfl⟩
  · rw [stars_evolve_spart, compute_stellar_evolution]
    simp only [hd1, hd2, Option.some_bind]
    rw [if_neg (by rw [heq]; exact lt_irrefl _), if_pos heq]
  · intro i hi
    simp only [if_pos hi]

/-- Witness for C8: PM93 model with ages `0.001` and `0.002` Gyr, both
in the saturation branch, so both dying masses are `100` and the step
has zero width. -/
theorem zero_width_step_noop_witness :
    ∃ sp1, stars_evolve_spart unitIntegrator zeroBinsFn 0 pm93Props
        { sampleSpart with age := 0.001 } (fun _ => 0) 0.001 =
          some (sp1, fun _ => 0) ∧
      (∀ i, i < chemistry_element_count → sp1.metals_released i = 0) ∧
      sp1.metal_mass_released = 0 ∧
      sp1.chemistry_data.mass_from_AGB = 0 ∧
      sp1.chemistry_data.metal_mass_fraction_from_AGB = 0 ∧
      sp1.chemistry_data.mass_from_SNII = 0 ∧
      sp1.chemistry_data.metal_mass_fraction_from_SNII = 0 ∧
      sp1.chemistry_data.mass_from_SNIa = 0 ∧
      sp1.chemistry_data.metal_mass_fraction_from_SNIa = 0 ∧
      sp1.chemistry_data.iron_mass_fraction_from_SNIa = 0 ∧
      sp1.num_snia = 0 ∧
      sp1.time_since_enrich_Gyr =
        ({ sampleSpart with age := 0.001 } : spart).time_since_enrich_Gyr := by
  have hf : pm93Props.stellar_lifetime_flag = 0 := by
    norm_num [pm93Props, baseProps]
  have hd1 : dying_mass_msun
      (({ sampleSpart with age := 0.001 } : spart).age * 1.0)
      ({ sampleSpart with age := 0.001 } : spart).chemistry_data.metal_mass_fraction_total
      pm93Props = some 100 := by
    rw [dying_flag0_unfold pm93Props hf,
      if_neg (by norm_num [sampleSpart] : ¬((({ sampleSpart with age := 0.001 } : spart).age * 1.0 : ℝ) > 0.039765318659064693)),
      if_neg (by norm_num [sampleSpart] : ¬((({ sampleSpart with age := 0.001 } : spart).age * 1.0 : ℝ) > 0.003))]
    norm_num [imfClamp, imf_max_mass_msun]
  have hd2 : dying_mass_msun
      (({ sampleSpart with age := 0.001 } : spart).age * 1.0 + 0.001 * 1.0)
      ({ sampleSpart with age := 0.001 } : spart).chemistry_data.metal_mass_fraction_total
      pm93Props = some 100 := by
    rw [dying_flag0_unfold pm93Props hf,
      if_neg (by norm_num [sampleSpart] : ¬((({ sampleSpart with age := 0.001 } : spart).age * 1.0 + 0.001 * 1.0 : ℝ) > 0.039765318659064693)),
      if_neg (by norm_num [sampleSpart] : ¬((({ sampleSpart with age := 0.001 } : spart).age * 1.0 + 0.001 * 1.0 : ℝ) > 0.003))]
    norm_num [imfClamp, imf_max_mass_msun]
  exact zero_width_step_noop unitIntegrator zeroBinsFn 0 pm93Props
    { sampleSpart with age := 0.001 } (fun _ => 0) 0.001 100 100 hd1 hd2 rfl

/-! ## C7: composability of half steps -/

lemma SNII_parts_loClamped
    (im : ℝ → ℝ → ℝ → ℤ → (ℕ → ℝ) → ℝ) (db : ℝ → ℝ → ℕ × ℕ) (lmm : ℝ)
    (props : stars_props) (sp : spart) (buf : ℕ → ℝ) (lo hi : ℝ) :
    (SNII_parts im db lmm props sp buf lo hi).loClamped =
      if lo < log10_SNII_min_mass_msun then log10_SNII_min_mass_msun else lo :=
  rfl

lemma SNII_parts_hiClamped
    (im : ℝ → ℝ → ℝ → ℤ → (ℕ → ℝ) → ℝ) (db : ℝ → ℝ → ℕ × ℕ) (lmm : ℝ)
    (props : stars_props) (sp : spart) (buf : ℕ → ℝ) (lo hi : ℝ) :
    (SNII_parts im db lmm props sp buf lo hi).hiClamped =
      if hi > log10_SNII_max_mass_msun then log10_SNII_max_mass_msun else hi :=
  rfl

/-- Full evaluation of one driver call on a path where the SNIa channel
runs without the cap adjustment (maximum dying mass below the cap),
SNIa mass transfer is off, the clamped SNII range is empty and the AGB
toggle is off: only `num_snia` and the zero-assigned SNIa chemistry
fields change, and crucially the enrichment clock stays at
`p.time_since_enrich_Gyr`. -/
lemma compute_subcap_SNIa_only
    (im : ℝ → ℝ → ℝ → ℤ → (ℕ → ℝ) → ℝ) (db : ℝ → ℝ → ℕ × ℕ) (lmm : ℝ)
    (props : stars_props) (p : spart) (buf : ℕ → ℝ) (dt m1 m2 : ℝ)
    (hd1 : dying_mass_msun (p.age * 1.0)
      p.chemistry_data.metal_mass_fraction_total props = some m1)
    (hd2 : dying_mass_msun (p.age * 1.0 + dt * 1.0)
      p.chemistry_data.metal_mass_fraction_total props = some m2)
    (hlt : Real.logb 10 m2 < Real.logb 10 m1)
    (hcap : ¬(Real.logb 10 m1 > log10_SNIa_max_mass_msun))
    (hSNIaTr : ¬(props.SNIa_mass_transfer = 1))
    (hAGBoff : props.AGB_mass_transfer = 0)
    (hemp : (if Real.logb 10 m2 < log10_SNII_min_mass_msun then
        log10_SNII_min_mass_msun else Real.logb 10 m2) ≥
      (if Real.logb 10 m1 > log10_SNII_max_mass_msun then
        log10_SNII_max_mass_msun else Real.logb 10 m1)) :
    compute_stellar_evolution im db lmm props p buf dt =
      some ({ p with
        num_snia := props.SNIa_efficiency *
          (Real.exp (-p.time_since_enrich_Gyr / props.SNIa_timescale) -
            Real.exp (-(p.time_since_enrich_Gyr + dt * 1.0) /
              props.SNIa_timescale))
        chemistry_data := { p.chemistry_data with
          iron_mass_fraction_from_SNIa := 0
          metal_mass_fraction_from_SNIa := 0
          mass_from_SNIa := 0 } }, buf) := by
  have hmincap : ¬(Real.logb 10 m2 ≥ log10_SNIa_max_mass_msun) :=
    not_le.mpr (lt_of_lt_of_le hlt (not_lt.mp hcap))
  rw [compute_stellar_evolution]
  simp only [hd1, hd2, Option.some_bind]
  rw [if_neg (not_lt.mpr (le_of_lt hlt)), if_neg (ne_of_lt hlt)]
  rw [evolve_SNIa, if_neg hmincap, if_neg hcap, SNIa_transfer, if_neg hSNIaTr]
  simp only [Option.some_bind]
  rw [evolve_SNII]
  simp only [SNII_parts_loClamped, SNII_parts_hiClamped]
  rw [if_pos hemp]
  simp only [Option.some_bind]
  rw [evolve_AGB, if_pos hAGBoff]

/-- The PM93 oldest-age branch mass as a function of `L = log10(age)`,
exactly the expression in `dying_mass_msun`'s flag-`0` first branch. -/
noncomputable def pm93TopMass (L : ℝ) : ℝ :=
  Real.exp (Real.log 10 *
    (7.764 - (1.79 -
        (1.338 - 0.1116 * (9 + L)) *
          (1.338 - 0.1116 * (9 + L))) /
      0.2232))

lemma pm93TopMass_le_100 {L : ℝ} (h0 : 0 ≤ L) (h1 : L ≤ 1) :
    pm93TopMass L ≤ 100 := by
  unfold pm93TopMass
  apply exp_le_hundred
  have hu1 : (1.338 - 0.1116 * (9 + L)) ≤ 0.3336 := by linarith
  have hu0 : 0 ≤ (1.338 - 0.1116 * (9 + L)) := by linarith
  have hsq : (1.338 - 0.1116 * (9 + L)) * (1.338 - 0.1116 * (9 + L)) ≤
      0.11128896 := by nlinarith
  have hdiv : (1.2865248 : ℝ) / 0.2232 ≤
      (1.79 - (1.338 - 0.1116 * (9 + L)) * (1.338 - 0.1116 * (9 + L))) /
        0.2232 := by
    apply (div_le_div_iff_of_pos_right (by norm_num : (0:ℝ) < 0.2232)).mpr
    linarith
  have hconst : (1.2865248 : ℝ) / 0.2232 = 5.764 := by norm_num
  linarith

lemma pm93Top_logb_le {L : ℝ} (h0 : 0 ≤ L) (h1 : L ≤ 1) :
    Real.logb 10 (pm93TopMass L) ≤ 0.243 := by
  unfold pm93TopMass
  rw [logb_ten_exp_mul]
  have hu1 : (1.338 - 0.1116 * (9 + L)) ≤ 0.3336 := by linarith
  have hu0 : 0 ≤ (1.338 - 0.1116 * (9 + L)) := by linarith
  have hsq : (1.338 - 0.1116 * (9 + L)) * (1.338 - 0.1116 * (9 + L)) ≤
      0.11128896 := by nlinarith
  have hdiv : (1.6786872 : ℝ) / 0.2232 ≤
      (1.79 - (1.338 - 0.1116 * (9 + L)) * (1.338 - 0.1116 * (9 + L))) /
        0.2232 := by
    apply (div_le_div_iff_of_pos_right (by norm_num : (0:ℝ) < 0.2232)).mpr
    linarith
  have hconst : (1.6786872 : ℝ) / 0.2232 = 7.521 := by norm_num
  linarith

lemma pm93Top_logb_lt {L1 L2 : ℝ} (h0 : 0 ≤ L1) (h12 : L1 < L2)
    (h2 : L2 ≤ 1) :
    Real.logb 10 (pm93TopMass L2) < Real.logb 10 (pm93TopMass L1) := by
  unfold pm93TopMass
  rw [logb_ten_exp_mul, logb_ten_exp_mul]
  have hu2pos : 0 ≤ (1.338 - 0.1116 * (9 + L2)) := by linarith
  have hult : (1.338 - 0.1116 * (9 + L2)) < (1.338 - 0.1116 * (9 + L1)) := by
    linarith
  have hsq : (1.338 - 0.1116 * (9 + L2)) * (1.338 - 0.1116 * (9 + L2)) <
      (1.338 - 0.1116 * (9 + L1)) * (1.338 - 0.1116 * (9 + L1)) := by
    nlinarith
  have hdiv : (1.79 - (1.338 - 0.1116 * (9 + L1)) *
        (1.338 - 0.1116 * (9 + L1))) / 0.2232 <
      (1.79 - (1.338 - 0.1116 * (9 + L2)) *
        (1.338 - 0.1116 * (9 + L2))) / 0.2232 :=
    (div_lt_div_iff_of_pos_right (by norm_num : (0:ℝ) < 0.2232)).mpr
      (by linarith)
  linarith

lemma dying_pm93_top (a Z : ℝ) (ha : 0.039765318659064693 < a)
    (h0 : 0 ≤ Real.logb 10 a) (h1 : Real.logb 10 a ≤ 1) :
    dying_mass_msun a Z pm93Props = some (pm93TopMass (Real.logb 10 a)) := by
  have hf : pm93Props.stellar_lifetime_flag = 0 := by
    norm_num [pm93Props, baseProps]
  rw [dying_flag0_unfold pm93Props hf a Z, if_pos ha]
  exact congrArg some (imfClamp_of_le_hundred (pm93TopMass_le_100 h0 h1))

lemma snii_range_empty {u v : ℝ} (hu : u ≤ 0.243) (hv : v ≤ 0.243) :
    (if v < log10_SNII_min_mass_msun then log10_SNII_min_mass_msun else v) ≥
      (if u > log10_SNII_max_mass_msun then log10_SNII_max_mass_msun
        else u) := by
  rw [if_pos (lt_of_le_of_lt hv
      (by norm_num [log10_SNII_min_mass_msun])),
    if_neg (not_lt.mpr (hu.trans (by norm_num [log10_SNII_max_mass_msun])))]
  exact hu.trans (by norm_num [log10_SNII_min_mass_msun])

lemma snia_cap_ok {u : ℝ} (hu : u ≤ 0.243) :
    ¬(u > log10_SNIa_max_mass_msun) :=
  not_lt.mpr (hu.trans (by norm_num [log10_SNIa_max_mass_msun]))

/-- Star particle at age 1 Gyr used for the composability experiment. -/
noncomputable def spC7 : spart := { sampleSpart with age := 1 }

/-- Counterexample to C7: with the PM93 lifetime model, unit SNIa
efficiency and timescale, and a particle of age 1 Gyr whose dying
masses stay below the SNIa cap (so the SNIa clock is never touched)
and below the SNII range (so no other channel runs), two driver calls
with `dt = 9/2` Gyr each — the age advanced by `dt/2` between calls
and the clock carried on the particle — produce a cumulative SNIa
count `2 * (1 - exp(-9/2))` while the single full-step call produces
`1 - exp(-9)`; the halves exceed the full step by `(1 - exp(-9/2))^2
> 1/4`, far beyond any floating-point tolerance, because the sub-cap
path never advances `time_since_enrich_Gyr` and the second half-step
re-integrates the same delay-time window. -/
theorem half_step_composability_cex :
    ∃ sp1 sp2 spF : spart,
      compute_stellar_evolution unitIntegrator zeroBinsFn 0 pm93Props spC7
          (fun _ => 0) (9 / 2) = some (sp1, fun _ => 0) ∧
      compute_stellar_evolution unitIntegrator zeroBinsFn 0 pm93Props
          { sp1 with age := spC7.age + 9 / 2 } (fun _ => 0) (9 / 2) =
            some (sp2, fun _ => 0) ∧
      compute_stellar_evolution unitIntegrator zeroBinsFn 0 pm93Props spC7
          (fun _ => 0) 9 = some (spF, fun _ => 0) ∧
      spF.num_snia + 1 / 4 < sp1.num_snia + sp2.num_snia := by
  have hL10 : Real.logb 10 (10:ℝ) = 1 := by
    have h := logb_ten_pow10 1 10 (by norm_num)
    simpa using h
  have hL55pos : 0 < Real.logb 10 (5.5:ℝ) :=
    Real.logb_pos (by norm_num) (by norm_num)
  have hL55lt : Real.logb 10 (5.5:ℝ) < 1 := by
    have h := Real.logb_lt_logb (by norm_num : (1:ℝ) < 10)
      (by norm_num : (0:ℝ) < 5.5) (by norm_num : (5.5:ℝ) < 10)
    rwa [hL10] at h
  have hSNIaTr : ¬(pm93Props.SNIa_mass_transfer = 1) := by
    norm_num [pm93Props, baseProps]
  have hAGBoff : pm93Props.AGB_mass_transfer = 0 := by
    norm_num [pm93Props, baseProps]
  have hb0 : Real.logb 10 (pm93TopMass 0) ≤ 0.243 :=
    pm93Top_logb_le le_rfl (by norm_num)
  have hb55 : Real.logb 10 (pm93TopMass (Real.logb 10 5.5)) ≤ 0.243 :=
    pm93Top_logb_le (le_of_lt hL55pos) (le_of_lt hL55lt)
  have hb1 : Real.logb 10 (pm93TopMass 1) ≤ 0.243 :=
    pm93Top_logb_le (by norm_num) le_rfl
  have hdy1 : dying_mass_msun (spC7.age * 1.0)
      spC7.chemistry_data.metal_mass_fraction_total pm93Props =
        some (pm93TopMass 0) := by
    rw [show (spC7.age * 1.0 : ℝ) = 1 by norm_num [spC7, sampleSpart],
      dying_pm93_top 1 _ (by norm_num) (le_of_eq Real.logb_one.symm)
        (by rw [Real.logb_one]; norm_num),
      Real.logb_one]
  have hdy2 : dying_mass_msun (spC7.age * 1.0 + 9 / 2 * 1.0)
      spC7.chemistry_data.metal_mass_fraction_total pm93Props =
        some (pm93TopMass (Real.logb 10 5.5)) := by
    rw [show (spC7.age * 1.0 + 9 / 2 * 1.0 : ℝ) = 5.5 by
        norm_num [spC7, sampleSpart],
      dying_pm93_top 5.5 _ (by norm_num) (le_of_lt hL55pos)
        (le_of_lt hL55lt)]
  have hdy2h : dying_mass_msun ((spC7.age + 9 / 2) * 1.0)
      spC7.chemistry_data.metal_mass_fraction_total pm93Props =
        some (pm93TopMass (Real.logb 10 5.5)) := by
    rw [show ((spC7.age + 9 / 2) * 1.0 : ℝ) = 5.5 by
        norm_num [spC7, sampleSpart],
      dying_pm93_top 5.5 _ (by norm_num) (le_of_lt hL55pos)
        (le_of_lt hL55lt)]
  have hdy3h : dying_mass_msun ((spC7.age + 9 / 2) * 1.0 + 9 / 2 * 1.0)
      spC7.chemistry_data.metal_mass_fraction_total pm93Props =
        some (pm93TopMass 1) := by
    rw [show ((spC7.age + 9 / 2) * 1.0 + 9 / 2 * 1.0 : ℝ) = 10 by
        norm_num [spC7, sampleSpart],
      dying_pm93_top 10 _ (by norm_num) (by rw [hL10]; norm_num)
        (le_of_eq hL10),
      hL10]
  have hdy3 : dying_mass_msun (spC7.age * 1.0 + 9 * 1.0)
      spC7.chemistry_data.metal_mass_fraction_total pm93Props =
        some (pm93TopMass 1) := by
    rw [show (spC7.age * 1.0 + 9 * 1.0 : ℝ) = 10 by
        norm_num [spC7, sampleSpart],
      dying_pm93_top 10 _ (by norm_num) (by rw [hL10]; norm_num)
        (le_of_eq hL10),
      hL10]
  have hlt12 : Real.logb 10 (pm93TopMass (Real.logb 10 5.5)) <
      Real.logb 10 (pm93TopMass 0) :=
    pm93Top_logb_lt le_rfl hL55pos (le_of_lt hL55lt)
  have hlt23 : Real.logb 10 (pm93TopMass 1) <
      Real.logb 10 (pm93TopMass (Real.logb 10 5.5)) :=
    pm93Top_logb_lt (le_of_lt hL55pos) hL55lt le_rfl
  have hlt13 : Real.logb 10 (pm93TopMass 1) <
      Real.logb 10 (pm93TopMass 0) :=
    pm93Top_logb_lt le_rfl (by norm_num) le_rfl
  obtain ⟨A1, hA1⟩ : ∃ A : spart, A = { spC7 with
      num_snia := pm93Props.SNIa_efficiency *
        (Real.exp (-spC7.time_since_enrich_Gyr / pm93Props.SNIa_timescale) -
          Real.exp (-(spC7.time_since_enrich_Gyr + 9 / 2 * 1.0) /
            pm93Props.SNIa_timescale))
      chemistry_data := { spC7.chemistry_data with
        iron_mass_fraction_from_SNIa := 0
        metal_mass_fraction_from_SNIa := 0
        mass_from_SNIa := 0 } } := ⟨_, rfl⟩
  have e1 : compute_stellar_evolution unitIntegrator zeroBinsFn 0 pm93Props
      spC7 (fun _ => 0) (9 / 2) = some (A1, fun _ => 0) := by
    rw [hA1]
    exact compute_subcap_SNIa_only unitIntegrator zeroBinsFn 0 pm93Props
      spC7 (fun _ => 0) (9 / 2) (pm93TopMass 0)
      (pm93TopMass (Real.logb 10 5.5)) hdy1 hdy2 hlt12 (snia_cap_ok hb0)
      hSNIaTr hAGBoff (snii_range_empty hb0 hb55)
  have hdy2A : dying_mass_msun
      (({ A1 with age := spC7.age + 9 / 2 } : spart).age * 1.0)
      ({ A1 with age := spC7.age + 9 / 2 } :
        spart).chemistry_data.metal_mass_fraction_total
      pm93Props = some (pm93TopMass (Real.logb 10 5.5)) := by
    rw [hA1]
    exact hdy2h
  have hdy3A : dying_mass_msun
      (({ A1 with age := spC7.age + 9 / 2 } : spart).age * 1.0 + 9 / 2 * 1.0)
      ({ A1 with age := spC7.age + 9 / 2 } :
        spart).chemistry_data.metal_mass_fraction_total
      pm93Props = some (pm93TopMass 1) := by
    rw [hA1]
    exact hdy3h
  obtain ⟨A2, hA2⟩ : ∃ A : spart, A =
      { ({ A1 with age := spC7.age + 9 / 2 } : spart) with
        num_snia := pm93Props.SNIa_efficiency *
          (Real.exp (-A1.time_since_enrich_Gyr / pm93Props.SNIa_timescale) -
            Real.exp (-(A1.time_since_enrich_Gyr + 9 / 2 * 1.0) /
              pm93Props.SNIa_timescale))
        chemistry_data := { A1.chemistry_data with
          iron_mass_fraction_from_SNIa := 0
          metal_mass_fraction_from_SNIa := 0
          mass_from_SNIa := 0 } } := ⟨_, rfl⟩
  have e2 : compute_stellar_evolution unitIntegrator zeroBinsFn 0 pm93Props
      { A1 with age := spC7.age + 9 / 2 } (fun _ => 0) (9 / 2) =
        some (A2, fun _ => 0) := by
    rw [hA2]
    exact compute_subcap_SNIa_only unitIntegrator zeroBinsFn 0 pm93Props
      ({ A1 with age := spC7.age + 9 / 2 }) (fun _ => 0) (9 / 2)
      (pm93TopMass (Real.logb 10 5.5)) (pm93TopMass 1) hdy2A hdy3A hlt23
      (snia_cap_ok hb55) hSNIaTr hAGBoff (snii_range_empty hb55 hb1)
  obtain ⟨AF, hAF⟩ : ∃ A : spart, A = { spC7 with
      num_snia := pm93Props.SNIa_efficiency *
        (Real.exp (-spC7.time_since_enrich_Gyr / pm93Props.SNIa_timescale) -
          Real.exp (-(spC7.time_since_enrich_Gyr + 9 * 1.0) /
            pm93Props.SNIa_timescale))
      chemistry_data := { spC7.chemistry_data with
        iron_mass_fraction_from_SNIa := 0
        metal_mass_fraction_from_SNIa := 0
        mass_from_SNIa := 0 } } := ⟨_, rfl⟩
  have e3 : compute_stellar_evolution unitIntegrator zeroBinsFn 0 pm93Props
      spC7 (fun _ => 0) 9 = some (AF, fun _ => 0) := by
    rw [hAF]
    exact compute_subcap_SNIa_only unitIntegrator zeroBinsFn 0 pm93Props
      spC7 (fun _ => 0) 9 (pm93TopMass 0) (pm93TopMass 1) hdy1 hdy3 hlt13
      (snia_cap_ok hb0) hSNIaTr hAGBoff (snii_range_empty hb0 hb1)
  refine ⟨A1, A2, AF, e1, e2, e3, ?_⟩
  rw [hAF, hA2, hA1]
  simp only [spC7, sampleSpart, pm93Props, baseProps, zeroChem]
  norm_num [Real.exp_zero]
  have hx : Real.exp (-(9:ℝ)) =
      Real.exp (-(9/2:ℝ)) * Real.exp (-(9/2:ℝ)) := by
    rw [← Real.exp_add]; norm_num
  have htpos : 0 < Real.exp (-(9/2:ℝ)) := Real.exp_pos _
  have hinv : Real.exp (-(9/2:ℝ)) * Real.exp ((9/2:ℝ)) = 1 := by
    rw [← Real.exp_add]; norm_num
  have h92 : (2:ℝ) < Real.exp ((9/2:ℝ)) :=
    lt_trans (lt_trans (by norm_num) Real.exp_one_gt_d9)
      (Real.exp_lt_exp.mpr (by norm_num))
  have htlt : Real.exp (-(9/2:ℝ)) < 1/2 := by nlinarith
  nlinarith [sq_nonneg (Real.exp (-(9/2:ℝ)) - 1/2), hx, htlt, htpos]

/-! ## C4: exact characterization of the fatal aborts -/

/-- The stellar lifetime model selector is one of the three defined
values (PM93, MM89, P98). -/
def valid_lifetime_flag (props : stars_props) : Prop :=
  props.stellar_lifetime_flag = 0 ∨ props.stellar_lifetime_flag = 1 ∨
    props.stellar_lifetime_flag = 2

lemma dying_none_iff (age Z : ℝ) (props : stars_props) :
    dying_mass_msun age Z props = none ↔ ¬ valid_lifetime_flag props := by
  simp only [dying_mass_msun, valid_lifetime_flag]
  split_ifs with h0 h1 h2 <;> simp_all

lemma lifetime_none_iff (m Z : ℝ) (props : stars_props) :
    lifetime_in_Gyr m Z props = none ↔ ¬ valid_lifetime_flag props := by
  simp only [lifetime_in_Gyr, valid_lifetime_flag]
  split_ifs with h0 h1 h2 <;> simp_all

lemma evolve_SNIa_none_iff (lo hi : ℝ) (props : stars_props) (sp : spart)
    (dtG : ℝ) :
    evolve_SNIa lo hi props sp dtG = none ↔
      ¬(lo ≥ log10_SNIa_max_mass_msun) ∧ hi > log10_SNIa_max_mass_msun ∧
        ¬ valid_lifetime_flag props := by
  rw [evolve_SNIa]
  split_ifs with h1 h2
  · simp [h1]
  · rcases hL : lifetime_in_Gyr (Real.exp (Real.log 10 *
        log10_SNIa_max_mass_msun))
        sp.chemistry_data.metal_mass_fraction_total props with _ | v
    · simp only [hL, Option.none_bind]
      exact iff_of_true trivial ⟨h1, h2, (lifetime_none_iff _ _ _).mp hL⟩
    · simp only [hL, Option.some_bind]
      apply iff_of_false (by simp)
      rintro ⟨-, -, hv⟩
      rw [(lifetime_none_iff (Real.exp (Real.log 10 *
          log10_SNIa_max_mass_msun))
          sp.chemistry_data.metal_mass_fraction_total props).mpr hv] at hL
      exact Option.noConfusion hL
  · simp [h1, h2]

lemma evolve_SNII_none_iff (im : ℝ → ℝ → ℝ → ℤ → (ℕ → ℝ) → ℝ)
    (db : ℝ → ℝ → ℕ × ℕ) (lmm : ℝ) (props : stars_props) (sp : spart)
    (buf : ℕ → ℝ) (lo hi : ℝ) :
    evolve_SNII im db lmm props sp buf lo hi = none ↔
      ¬((SNII_parts im db lmm props sp buf lo hi).loClamped ≥
          (SNII_parts im db lmm props sp buf lo hi).hiClamped) ∧
        props.SNII_mass_transfer = 1 ∧
        ¬((SNII_parts im db lmm props sp buf lo hi).norm1 > 0) := by
  rw [evolve_SNII]
  simp only []
  split_ifs with h1 h2 h3 <;> simp_all

lemma evolve_AGB_none_iff (im : ℝ → ℝ → ℝ → ℤ → (ℕ → ℝ) → ℝ)
    (db : ℝ → ℝ → ℕ × ℕ) (lmm : ℝ) (props : stars_props) (sp : spart)
    (buf : ℕ → ℝ) (lo hi : ℝ) :
    evolve_AGB im db lmm props sp buf lo hi = none ↔
      ¬(props.AGB_mass_transfer = 0) ∧
        ¬((AGB_parts im db lmm props sp buf lo hi).loClamped ≥
            (AGB_parts im db lmm props sp buf lo hi).hiClamped) ∧
        ¬((AGB_parts im db lmm props sp buf lo hi).norm1 > 0) := by
  rw [evolve_AGB]
  simp only []
  split_ifs with h1 h2 h3 <;> simp_all

lemma compute_none_iff (im : ℝ → ℝ → ℝ → ℤ → (ℕ → ℝ) → ℝ)
    (db : ℝ → ℝ → ℕ × ℕ) (lmm : ℝ) (props : stars_props) (sp : spart)
    (buf : ℕ → ℝ) (dt : ℝ) :
    compute_stellar_evolution im db lmm props sp buf dt = none ↔
      (¬ valid_lifetime_flag props ∨
        ∃ mmax mmin,
          dying_mass_msun (sp.age * 1.0)
              sp.chemistry_data.metal_mass_fraction_total props =
                some mmax ∧
          dying_mass_msun (sp.age * 1.0 + dt * 1.0)
              sp.chemistry_data.metal_mass_fraction_total props =
                some mmin ∧
          (Real.logb 10 mmin > Real.logb 10 mmax ∨
            (Real.logb 10 mmin < Real.logb 10 mmax ∧
              ∃ sp1, evolve_SNIa (Real.logb 10 mmin) (Real.logb 10 mmax)
                  props sp (dt * 1.0) = some sp1 ∧
                ((¬((SNII_parts im db lmm props sp1 buf (Real.logb 10 mmin)
                        (Real.logb 10 mmax)).loClamped ≥
                      (SNII_parts im db lmm props sp1 buf (Real.logb 10 mmin)
                        (Real.logb 10 mmax)).hiClamped) ∧
                    props.SNII_mass_transfer = 1 ∧
                    ¬((SNII_parts im db lmm props sp1 buf (Real.logb 10 mmin)
                        (Real.logb 10 mmax)).norm1 > 0)) ∨
                  ∃ r, evolve_SNII im db lmm props sp1 buf
                      (Real.logb 10 mmin) (Real.logb 10 mmax) = some r ∧
                    ¬(props.AGB_mass_transfer = 0) ∧
                    ¬((AGB_parts im db lmm props r.1 r.2 (Real.logb 10 mmin)
                          (Real.logb 10 mmax)).loClamped ≥
                        (AGB_parts im db lmm props r.1 r.2
                          (Real.logb 10 mmin)
                          (Real.logb 10 mmax)).hiClamped) ∧
                    ¬((AGB_parts im db lmm props r.1 r.2 (Real.logb 10 mmin)
                        (Real.logb 10 mmax)).norm1 > 0))))) := by
  rcases hdy1 : dying_mass_msun (sp.age * 1.0)
      sp.chemistry_data.metal_mass_fraction_total props with _ | mmax
  · rw [compute_stellar_evolution]
    simp only [hdy1, Option.none_bind]
    exact iff_of_true trivial (Or.inl ((dying_none_iff _ _ _).mp hdy1))
  · rcases hdy2 : dying_mass_msun (sp.age * 1.0 + dt * 1.0)
        sp.chemistry_data.metal_mass_fraction_total props with _ | mmin
    · rw [compute_stellar_evolution]
      simp only [hdy1, hdy2, Option.some_bind, Option.none_bind]
      exact iff_of_true trivial (Or.inl ((dying_none_iff _ _ _).mp hdy2))
    · have hval : valid_lifetime_flag props := by
        by_contra hv
        rw [(dying_none_iff (sp.age * 1.0)
          sp.chemistry_data.metal_mass_fraction_total props).mpr hv] at hdy1
        exact Option.noConfusion hdy1
      rw [compute_stellar_evolution]
      simp only [hdy1, hdy2, Option.some_bind]
      split_ifs with hgt heq
      · exact iff_of_true (by simp) (Or.inr ⟨mmax, mmin, rfl, rfl, Or.inl hgt⟩)
      · apply iff_of_false (by simp)
        rintro (hv | ⟨m1, m2, h1, h2, h3⟩)
        · exact hv hval
        · injection h1 with h1
          injection h2 with h2
          subst h1
          subst h2
          rcases h3 with h3 | ⟨h3, -⟩
          · exact hgt h3
          · exact absurd heq (ne_of_lt h3)
      · have hltm : Real.logb 10 mmin < Real.logb 10 mmax :=
          lt_of_le_of_ne (not_lt.mp hgt) heq
        obtain ⟨sp1, hsp1⟩ : ∃ s, evolve_SNIa (Real.logb 10 mmin)
            (Real.logb 10 mmax) props sp (dt * 1.0) = some s := by
          rcases hS : evolve_SNIa (Real.logb 10 mmin) (Real.logb 10 mmax)
              props sp (dt * 1.0) with _ | s
          · exact absurd hval ((evolve_SNIa_none_iff _ _ _ _ _).mp hS).2.2
          · exact ⟨s, rfl⟩
        rw [hsp1]
        simp only [Option.some_bind]
        rcases hS2 : evolve_SNII im db lmm props sp1 buf (Real.logb 10 mmin)
            (Real.logb 10 mmax) with _ | r
        · simp only [Option.none_bind]
          exact iff_of_true (by simp) (Or.inr ⟨mmax, mmin, rfl, rfl,
            Or.inr ⟨hltm, sp1, hsp1,
              Or.inl ((evolve_SNII_none_iff _ _ _ _ _ _ _ _).mp hS2)⟩⟩)
        · simp only [Option.some_bind]
          rcases hA : evolve_AGB im db lmm props r.1 r.2 (Real.logb 10 mmin)
              (Real.logb 10 mmax) with _ | q
          · exact iff_of_true rfl (Or.inr ⟨mmax, mmin, rfl, rfl,
              Or.inr ⟨hltm, sp1, hsp1, Or.inr ⟨r, hS2,
                (evolve_AGB_none_iff _ _ _ _ _ _ _ _).mp hA⟩⟩⟩)
          · apply iff_of_false (by simp)
            rintro (hv | ⟨m1, m2, h1, h2, h3⟩)
            · exact hv hval
            · injection h1 with h1
              injection h2 with h2
              subst h1
              subst h2
              rcases h3 with h3 | ⟨-, s1, hs1, h4⟩
              · exact hgt h3
              · rw [hsp1] at hs1
                injection hs1 with hs1
                subst hs1
                rcases h4 with h4 | ⟨r2, hr2, h5⟩
                · rw [(evolve_SNII_none_iff im db lmm props sp1 buf
                    (Real.logb 10 mmin) (Real.logb 10 mmax)).mpr h4] at hS2
                  exact Option.noConfusion hS2
                · rw [hS2] at hr2
                  injection hr2 with hr2
                  subst hr2
                  rw [(evolve_AGB_none_iff im db lmm props r.1 r.2
                    (Real.logb 10 mmin) (Real.logb 10 mmax)).mpr h5] at hA
                  exact Option.noConfusion hA

/-- C4: the subsystem aborts exactly in the three advertised cases.
The conjuncts characterize every `none` (the embedding of `error`):
`dying_mass_msun` and `lifetime_in_Gyr` abort exactly on an invalid
lifetime-model selector; `evolve_SNIa` aborts exactly when it reaches
its internal `lifetime_in_Gyr` call (cap-exceeded branch) with an
invalid selector; `evolve_SNII` aborts exactly when its clamped range
is non-empty, mass transfer is on and `norm1 <= 0`; `evolve_AGB`
aborts exactly when its toggle is on, its clamped range is non-empty
and `norm1 <= 0`; and the driver aborts exactly on an invalid
selector, a min dying mass above the max, or a channel normalization
failure — no other input causes an abort. -/
theorem abort_exactly_three_cases :
    (∀ (age Z : ℝ) (props : stars_props),
      dying_mass_msun age Z props = none ↔ ¬ valid_lifetime_flag props) ∧
    (∀ (m Z : ℝ) (props : stars_props),
      lifetime_in_Gyr m Z props = none ↔ ¬ valid_lifetime_flag props) ∧
    (∀ (lo hi : ℝ) (props : stars_props) (sp : spart) (dtG : ℝ),
      evolve_SNIa lo hi props sp dtG = none ↔
        ¬(lo ≥ log10_SNIa_max_mass_msun) ∧
          hi > log10_SNIa_max_mass_msun ∧ ¬ valid_lifetime_flag props) ∧
    (∀ (im : ℝ → ℝ → ℝ → ℤ → (ℕ → ℝ) → ℝ) (db : ℝ → ℝ → ℕ × ℕ) (lmm : ℝ)
        (props : stars_props) (sp : spart) (buf : ℕ → ℝ) (lo hi : ℝ),
      evolve_SNII im db lmm props sp buf lo hi = none ↔
        ¬((SNII_parts im db lmm props sp buf lo hi).loClamped ≥
            (SNII_parts im db lmm props sp buf lo hi).hiClamped) ∧
          props.SNII_mass_transfer = 1 ∧
          ¬((SNII_parts im db lmm props sp buf lo hi).norm1 > 0)) ∧
    (∀ (im : ℝ → ℝ → ℝ → ℤ → (ℕ → ℝ) → ℝ) (db : ℝ → ℝ → ℕ × ℕ) (lmm : ℝ)
        (props : stars_props) (sp : spart) (buf : ℕ → ℝ) (lo hi : ℝ),
      evolve_AGB im db lmm props sp buf lo hi = none ↔
        ¬(props.AGB_mass_transfer = 0) ∧
          ¬((AGB_parts im db lmm props sp buf lo hi).loClamped ≥
              (AGB_parts im db lmm props sp buf lo hi).hiClamped) ∧
          ¬((AGB_parts im db lmm props sp buf lo hi).norm1 > 0)) ∧
    (∀ (im : ℝ → ℝ → ℝ → ℤ → (ℕ → ℝ) → ℝ) (db : ℝ → ℝ → ℕ × ℕ) (lmm : ℝ)
        (props : stars_props) (sp : spart) (buf : ℕ → ℝ) (dt : ℝ),
      compute_stellar_evolution im db lmm props sp buf dt = none ↔
        (¬ valid_lifetime_flag props ∨
          ∃ mmax mmin,
            dying_mass_msun (sp.age * 1.0)
                sp.chemistry_data.metal_mass_fraction_total props =
                  some mmax ∧
            dying_mass_msun (sp.age * 1.0 + dt * 1.0)
                sp.chemistry_data.metal_mass_fraction_total props =
                  some mmin ∧
            (Real.logb 10 mmin > Real.logb 10 mmax ∨
              (Real.logb 10 mmin < Real.logb 10 mmax ∧
                ∃ sp1, evolve_SNIa (Real.logb 10 mmin) (Real.logb 10 mmax)
                    props sp (dt * 1.0) = some sp1 ∧
                  ((¬((SNII_parts im db lmm props sp1 buf
                          (Real.logb 10 mmin)
                          (Real.logb 10 mmax)).loClamped ≥
                        (SNII_parts im db lmm props sp1 buf
                          (Real.logb 10 mmin)
                          (Real.logb 10 mmax)).hiClamped) ∧
                      props.SNII_mass_transfer = 1 ∧
                      ¬((SNII_parts im db lmm props sp1 buf
                          (Real.logb 10 mmin)
                          (Real.logb 10 mmax)).norm1 > 0)) ∨
                    ∃ r, evolve_SNII im db lmm props sp1 buf
                        (Real.logb 10 mmin) (Real.logb 10 mmax) =
                          some r ∧
                      ¬(props.AGB_mass_transfer = 0) ∧
                      ¬((AGB_parts im db lmm props r.1 r.2
                            (Real.logb 10 mmin)
                            (Real.logb 10 mmax)).loClamped ≥
                          (AGB_parts im db lmm props r.1 r.2
                            (Real.logb 10 mmin)
                            (Real.logb 10 mmax)).hiClamped) ∧
                      ¬((AGB_parts im db lmm props r.1 r.2
                          (Real.logb 10 mmin)
                          (Real.logb 10 mmax)).norm1 > 0)))))) :=
  ⟨dying_none_iff, lifetime_none_iff, evolve_SNIa_none_iff,
    evolve_SNII_none_iff, evolve_AGB_none_iff, compute_none_iff⟩


/-- Witness for C10: on the PM93 model with the age-1 particle and a
sub-cap step of `9/2` Gyr, the run succeeds and the enrichment clock
comes out exactly as it went in. -/
theorem stars_evolve_time_since_enrich_witness :
    ∃ r, stars_evolve_spart unitIntegrator zeroBinsFn 0 pm93Props spC7
        (fun _ => 0) (9 / 2) = some r ∧
      r.1.time_since_enrich_Gyr = spC7.time_since_enrich_Gyr := by
  have hf : pm93Props.stellar_lifetime_flag = 0 := by
    norm_num [pm93Props, baseProps]
  have hL10 : Real.logb 10 (10:ℝ) = 1 := by
    have h := logb_ten_pow10 1 10 (by norm_num)
    simpa using h
  have hL55pos : 0 < Real.logb 10 (5.5:ℝ) :=
    Real.logb_pos (by norm_num) (by norm_num)
  have hL55lt : Real.logb 10 (5.5:ℝ) < 1 := by
    have h := Real.logb_lt_logb (by norm_num : (1:ℝ) < 10)
      (by norm_num : (0:ℝ) < 5.5) (by norm_num : (5.5:ℝ) < 10)
    rwa [hL10] at h
  have hSNIaTr : ¬(pm93Props.SNIa_mass_transfer = 1) := by
    norm_num [pm93Props, baseProps]
  have hAGBoff : pm93Props.AGB_mass_transfer = 0 := by
    norm_num [pm93Props, baseProps]
  have hb0 : Real.logb 10 (pm93TopMass 0) ≤ 0.243 :=
    pm93Top_logb_le le_rfl (by norm_num)
  have hb55 : Real.logb 10 (pm93TopMass (Real.logb 10 5.5)) ≤ 0.243 :=
    pm93Top_logb_le (le_of_lt hL55pos) (le_of_lt hL55lt)
  have hdy1 : dying_mass_msun (spC7.age * 1.0)
      spC7.chemistry_data.metal_mass_fraction_total pm93Props =
        some (pm93TopMass 0) := by
    rw [show (spC7.age * 1.0 : ℝ) = 1 by norm_num [spC7, sampleSpart],
      dying_pm93_top 1 _ (by norm_num) (le_of_eq Real.logb_one.symm)
        (by rw [Real.logb_one]; norm_num),
      Real.logb_one]
  have hdy2 : dying_mass_msun (spC7.age * 1.0 + 9 / 2 * 1.0)
      spC7.chemistry_data.metal_mass_fraction_total pm93Props =
        some (pm93TopMass (Real.logb 10 5.5)) := by
    rw [show (spC7.age * 1.0 + 9 / 2 * 1.0 : ℝ) = 5.5 by
        norm_num [spC7, sampleSpart],
      dying_pm93_top 5.5 _ (by norm_num) (le_of_lt hL55pos)
        (le_of_lt hL55lt)]
  have hlt12 : Real.logb 10 (pm93TopMass (Real.logb 10 5.5)) <
      Real.logb 10 (pm93TopMass 0) :=
    pm93Top_logb_lt le_rfl hL55pos (le_of_lt hL55lt)
  obtain ⟨L, hL⟩ : ∃ L, lifetime_in_Gyr
      (Real.exp (Real.log 10 * log10_SNIa_max_mass_msun))
      spC7.chemistry_data.metal_mass_fraction_total pm93Props = some L := by
    rw [lifetime_in_Gyr, if_pos hf]
    exact ⟨_, rfl⟩
  obtain ⟨r, hr⟩ : ∃ r, stars_evolve_spart unitIntegrator zeroBinsFn 0
      pm93Props spC7 (fun _ => 0) (9 / 2) = some r := by
    rw [stars_evolve_spart]
    simp only []
    exact ⟨_, compute_subcap_SNIa_only unitIntegrator zeroBinsFn 0 pm93Props
      _ (fun _ => 0) (9 / 2) (pm93TopMass 0)
      (pm93TopMass (Real.logb 10 5.5)) hdy1 hdy2 hlt12 (snia_cap_ok hb0)
      hSNIaTr hAGBoff (snii_range_empty hb0 hb55)⟩
  refine ⟨r, hr, ?_⟩
  have h := stars_evolve_time_since_enrich unitIntegrator zeroBinsFn 0
    pm93Props spC7 (fun _ => 0) (9 / 2) (pm93TopMass 0)
    (pm93TopMass (Real.logb 10 5.5)) L hdy1 hdy2 hL r hr
  exact h.2 (fun hc => snia_cap_ok hb0 hc.2.2)


end SwiftEagle
